import Mathlib

/-!
Verification of the regex-driven data-connector layer, the batch-metric record
schema, and the dataframe sampling helpers of this repository, over a shallow
embedding of the Python source.

Python dictionaries are modelled as association lists with Python's insertion
semantics: assigning to an existing key updates the value in place (keeping the
key's original position), assigning to a fresh key appends it at the end.
-/

/-- Model of Python dictionary assignment `d[k] = v`: if the key is present its
value is updated in place, otherwise the pair is appended at the end. -/
def pyDictInsert {α β : Type} [BEq α] (d : List (α × β)) (k : α) (v : β) :
    List (α × β) :=
  if (d.map Prod.fst).contains k then
    d.map (fun kv => if kv.1 == k then (kv.1, v) else kv)
  else d ++ [(k, v)]

/-- Model of Python `dict(pairs)`: inserts the pairs left to right into an
initially empty dictionary. -/
def pyDictOf {α β : Type} [BEq α] (l : List (α × β)) : List (α × β) :=
  l.foldl (fun d kv => pyDictInsert d kv.1 kv.2) []

theorem pyDictInsert_of_not_mem {α β : Type} [BEq α] (d : List (α × β)) (k : α)
    (v : β) (h : (d.map Prod.fst).contains k = false) :
    pyDictInsert d k v = d ++ [(k, v)] := by
  simp [pyDictInsert, h]

theorem pyDictOf_aux_eq_append {α β : Type} [BEq α] [LawfulBEq α]
    (l : List (α × β)) :
    ∀ acc : List (α × β), (∀ k, k ∈ l.map Prod.fst → k ∉ acc.map Prod.fst) →
      (l.map Prod.fst).Nodup →
      l.foldl (fun d kv => pyDictInsert d kv.1 kv.2) acc = acc ++ l := by
  induction l with
  | nil => intro acc _ _; simp
  | cons hd tl ih =>
    intro acc hdisj hnd
    obtain ⟨k, v⟩ := hd
    have hk : k ∉ acc.map Prod.fst := hdisj k (by simp)
    have hcon : (acc.map Prod.fst).contains k = false := by
      simpa using hk
    simp only [List.foldl_cons]
    rw [pyDictInsert_of_not_mem acc k v hcon]
    have hnd0 : k ∉ tl.map Prod.fst ∧ (tl.map Prod.fst).Nodup :=
      List.nodup_cons.mp (by simpa using hnd)
    have hdisj2 : ∀ k2, k2 ∈ tl.map Prod.fst →
        k2 ∉ (acc ++ [(k, v)]).map Prod.fst := by
      intro k2 hk2
      simp only [List.map_append, List.mem_append, List.map_cons, List.map_nil,
        List.mem_singleton, not_or]
      refine ⟨hdisj k2 (by simp [hk2]), ?_⟩
      intro hkk
      subst hkk
      exact hnd0.1 hk2
    rw [ih (acc ++ [(k, v)]) hdisj2 hnd0.2]
    simp

/-- If the keys of an association list are distinct then building a Python
dictionary from it returns the list unchanged. -/
theorem pyDictOf_eq_self {α β : Type} [BEq α] [LawfulBEq α]
    (l : List (α × β)) (hnd : (l.map Prod.fst).Nodup) : pyDictOf l = l := by
  have := pyDictOf_aux_eq_append l [] (by simp) hnd
  simpa [pyDictOf] using this

/-- With distinct keys, `List.lookup` agrees with membership of the pair. -/
theorem lookup_eq_some_iff_mem {α β : Type} [BEq α] [LawfulBEq α]
    [DecidableEq α] [DecidableEq β]
    (l : List (α × β)) (hnd : (l.map Prod.fst).Nodup) (k : α) (v : β) :
    l.lookup k = some v ↔ (k, v) ∈ l := by
  induction l with
  | nil => simp [List.lookup]
  | cons hd tl ih =>
    obtain ⟨k1, v1⟩ := hd
    simp only [List.map_cons, List.nodup_cons] at hnd
    rw [List.lookup]
    by_cases hk : k = k1
    · subst hk
      simp only [beq_self_eq_true, cond_true]
      constructor
      · intro h
        have hv : v1 = v := by simpa using h
        subst hv
        exact List.mem_cons_self _ _
      · intro h
        rcases List.mem_cons.mp h with h1 | h1
        · have : v = v1 := congrArg Prod.snd h1
          simp [this]
        · exact absurd (by simpa using List.mem_map_of_mem Prod.fst h1) hnd.1
    · have hbeq : (k == k1) = false := by simpa using hk
      simp only [hbeq, cond_false]
      rw [ih hnd.2]
      constructor
      · exact fun h => List.mem_cons_of_mem _ h
      · intro h
        rcases List.mem_cons.mp h with h1 | h1
        · exact absurd (congrArg Prod.fst h1) hk
        · exact h1

theorem mem_of_lookup_eq_some {α β : Type} [BEq α] [LawfulBEq α]
    (l : List (α × β)) (k : α) (v : β) (h : l.lookup k = some v) : (k, v) ∈ l := by
  induction l with
  | nil => simp [List.lookup] at h
  | cons hd tl ih =>
    obtain ⟨k1, v1⟩ := hd
    rw [List.lookup] at h
    by_cases hk : k == k1
    · simp only [hk, cond_true] at h
      have hk2 : k = k1 := by simpa using hk
      have hv : v1 = v := by simpa using h
      subst hk2; subst hv
      exact List.mem_cons_self _ _
    · rw [Bool.not_eq_true] at hk
      simp only [hk, cond_false] at h
      exact List.mem_cons_of_mem _ (ih h)

/-!
Embedding of `RegExParser`
(src: `great_expectations/experimental/datasources/data_asset/data_connector/regex_parser.py`).
-/

/-- Model of a compiled Python regular expression (`re.Pattern`) as far as
`RegExParser` observes it: `groups` is the total number of capturing groups and
`groupindex` is the mapping from `(?P<name>...)` group names to group indexes,
in the order Python's `dict(pattern.groupindex)` iterates it (ascending group
index, since named groups are numbered left to right).  A pattern produced by
`re.compile` always satisfies `RePattern.valid`. -/
structure RePattern where
  groups : Nat
  groupindex : List (String × Nat)
deriving DecidableEq, Repr

/-- Invariants guaranteed by Python's `re.compile`: group indexes in
`groupindex` are distinct, group names are distinct, and every named group
index lies between 1 and the total group count. -/
def RePattern.valid (p : RePattern) : Prop :=
  (p.groupindex.map Prod.snd).Nodup ∧ (p.groupindex.map Prod.fst).Nodup ∧
    ∀ kv ∈ p.groupindex, 1 ≤ kv.2 ∧ kv.2 ≤ p.groups

instance (p : RePattern) : Decidable p.valid := by
  unfold RePattern.valid
  infer_instance

/-- State built by `RegExParser.__init__`: it stores the pattern's group count
and a copy of `groupindex`, together with the prefix used to synthesize names
for unnamed groups (source field `_unnamed_regex_group_prefix`, default
`"unnamed_group_"`; renamed here to `unnamed_group_pfx`). -/
structure RegExParser where
  num_all_matched_group_values : Nat
  named_group_name_to_group_index_mapping : List (String × Nat)
  unnamed_group_pfx : String
deriving DecidableEq, Repr

/-- Embedding of `RegExParser.__init__`. -/
def RegExParser.init (regex_pattern : RePattern) (pfx : String) : RegExParser :=
  { num_all_matched_group_values := regex_pattern.groups
    named_group_name_to_group_index_mapping := pyDictOf regex_pattern.groupindex
    unnamed_group_pfx := pfx }

/-- Embedding of `RegExParser.get_num_all_matched_group_values`. -/
def RegExParser.get_num_all_matched_group_values (self : RegExParser) : Nat :=
  self.num_all_matched_group_values

/-- Embedding of `RegExParser.get_num_named_matched_group_values`. -/
def RegExParser.get_num_named_matched_group_values (self : RegExParser) : Nat :=
  self.named_group_name_to_group_index_mapping.length

/-- Embedding of
`RegExParser.get_all_group_names_to_group_indexes_bidirectional_mappings`.
Python's `dict(zip(d.values(), d.keys()))` is `pyDictOf` of the swapped pairs,
`{**a, **b}` is `pyDictOf (a ++ b)`, and `dict(sorted(items, key=element[0]))`
is a stable sort on the key (modelled by `List.insertionSort`, which is
stable, as is Python's `sorted`) followed by `pyDictOf`. -/
def RegExParser.get_all_group_names_to_group_indexes_bidirectional_mappings
    (self : RegExParser) : List (String × Nat) × List (Nat × String) :=
  let named_group_index_to_group_name_mapping : List (Nat × String) :=
    pyDictOf (self.named_group_name_to_group_index_mapping.map
      (fun kv => (kv.2, kv.1)))
  let common_group_indexes : List Nat :=
    (List.range' 1 self.num_all_matched_group_values).filter
      (fun idx =>
        !((self.named_group_name_to_group_index_mapping.map Prod.snd).contains
          idx))
  let common_group_index_to_group_name_mapping : List (Nat × String) :=
    common_group_indexes.map
      (fun group_idx => (group_idx, self.unnamed_group_pfx ++ toString group_idx))
  let all_group_index_to_group_name_mapping : List (Nat × String) :=
    pyDictOf (named_group_index_to_group_name_mapping ++
      common_group_index_to_group_name_mapping)
  let all_group_index_to_group_name_mapping : List (Nat × String) :=
    pyDictOf (all_group_index_to_group_name_mapping.insertionSort
      (fun a b => a.1 ≤ b.1))
  let all_group_name_to_group_index_mapping : List (String × Nat) :=
    pyDictOf (all_group_index_to_group_name_mapping.map (fun kv => (kv.2, kv.1)))
  (all_group_name_to_group_index_mapping, all_group_index_to_group_name_mapping)

/-- Embedding of `RegExParser.get_all_group_name_to_group_index_mapping`. -/
def RegExParser.get_all_group_name_to_group_index_mapping
    (self : RegExParser) : List (String × Nat) :=
  self.get_all_group_names_to_group_indexes_bidirectional_mappings.1

/-- Embedding of `RegExParser.get_all_group_index_to_group_name_mapping`. -/
def RegExParser.get_all_group_index_to_group_name_mapping
    (self : RegExParser) : List (Nat × String) :=
  self.get_all_group_names_to_group_indexes_bidirectional_mappings.2

/-- Embedding of `RegExParser.get_all_group_names`. -/
def RegExParser.get_all_group_names (self : RegExParser) : List String :=
  self.get_all_group_name_to_group_index_mapping.map Prod.fst

/-- Embedding of `RegExParser.get_all_group_indexes`. -/
def RegExParser.get_all_group_indexes (self : RegExParser) : List Nat :=
  self.get_all_group_index_to_group_name_mapping.map Prod.fst

/-- Spec-side form of the inverted named-group mapping (`dict(zip(values, keys))`
applied to `groupindex`). -/
def namedInvMapping (p : RePattern) : List (Nat × String) :=
  p.groupindex.map (fun kv => (kv.2, kv.1))

/-- Spec-side form of the synthesized mapping for unnamed group indexes. -/
def commonMapping (p : RePattern) (pfx : String) : List (Nat × String) :=
  ((List.range' 1 p.groups).filter
    (fun idx => !((p.groupindex.map Prod.snd).contains idx))).map
    (fun i => (i, pfx ++ toString i))

/-- Spec-side form of the merged index-to-name mapping before sorting. -/
def mergedMapping (p : RePattern) (pfx : String) : List (Nat × String) :=
  namedInvMapping p ++ commonMapping p pfx

theorem mergedMapping_keys_perm (p : RePattern) (pfx : String) (hv : p.valid) :
    ((mergedMapping p pfx).map Prod.fst).Perm (List.range' 1 p.groups) := by
  have hkeys : (mergedMapping p pfx).map Prod.fst =
      p.groupindex.map Prod.snd ++
        (List.range' 1 p.groups).filter
          (fun idx => !((p.groupindex.map Prod.snd).contains idx)) := by
    simp [mergedMapping, namedInvMapping, commonMapping, List.map_map,
      Function.comp_def]
  rw [hkeys]
  have hperm2 := List.filter_append_perm
    (fun idx => (p.groupindex.map Prod.snd).contains idx) (List.range' 1 p.groups)
  have hperm1 : (p.groupindex.map Prod.snd).Perm
      ((List.range' 1 p.groups).filter
        (fun idx => (p.groupindex.map Prod.snd).contains idx)) := by
    apply (List.perm_ext_iff_of_nodup hv.1 (List.Nodup.filter _
      (List.nodup_range' _ _))).mpr
    intro a
    simp only [List.mem_filter, List.mem_range'_1, List.elem_iff]
    constructor
    · intro ha
      rcases List.mem_map.mp ha with ⟨kv, hkv, hkva⟩
      have := hv.2.2 kv hkv
      refine ⟨?_, ha⟩
      omega
    · exact fun h => h.2
  exact (hperm1.append_right _).trans hperm2

theorem mergedMapping_keys_nodup (p : RePattern) (pfx : String) (hv : p.valid) :
    ((mergedMapping p pfx).map Prod.fst).Nodup :=
  (mergedMapping_keys_perm p pfx hv).nodup_iff.mpr (List.nodup_range' _ _)

theorem bidir_eq (p : RePattern) (pfx : String) (hv : p.valid) :
    (RegExParser.init p pfx).get_all_group_names_to_group_indexes_bidirectional_mappings =
      (pyDictOf (((mergedMapping p pfx).insertionSort
          (fun a b => a.1 ≤ b.1)).map (fun kv => (kv.2, kv.1))),
        (mergedMapping p pfx).insertionSort (fun a b => a.1 ≤ b.1)) := by
  have hgi : pyDictOf p.groupindex = p.groupindex := pyDictOf_eq_self _ hv.2.1
  have hnamed : pyDictOf (namedInvMapping p) = namedInvMapping p := by
    apply pyDictOf_eq_self
    have : (namedInvMapping p).map Prod.fst = p.groupindex.map Prod.snd := by
      simp [namedInvMapping, List.map_map, Function.comp_def]
    rw [this]
    exact hv.1
  have hmerged : pyDictOf (mergedMapping p pfx) = mergedMapping p pfx :=
    pyDictOf_eq_self _ (mergedMapping_keys_nodup p pfx hv)
  have hsortperm : ((mergedMapping p pfx).insertionSort
      (fun a b => a.1 ≤ b.1)).Perm (mergedMapping p pfx) :=
    List.perm_insertionSort _ _
  have hsorted : pyDictOf ((mergedMapping p pfx).insertionSort
      (fun a b => a.1 ≤ b.1)) = (mergedMapping p pfx).insertionSort
      (fun a b => a.1 ≤ b.1) := by
    apply pyDictOf_eq_self
    exact ((hsortperm.map Prod.fst).nodup_iff).mpr
      (mergedMapping_keys_nodup p pfx hv)
  unfold RegExParser.get_all_group_names_to_group_indexes_bidirectional_mappings
  simp only [RegExParser.init, hgi]
  rw [show (p.groupindex.map (fun kv => (kv.2, kv.1))) = namedInvMapping p from rfl]
  rw [hnamed]
  rw [show namedInvMapping p ++
      ((List.range' 1 p.groups).filter
        (fun idx => !((p.groupindex.map Prod.snd).contains idx))).map
        (fun group_idx => (group_idx, pfx ++ toString group_idx)) =
      mergedMapping p pfx from rfl]
  rw [hmerged, hsorted]

theorem bidir_snd_map_fst (p : RePattern) (pfx : String) (hv : p.valid) :
    ((RegExParser.init p pfx).get_all_group_index_to_group_name_mapping).map
      Prod.fst = List.range' 1 p.groups := by
  unfold RegExParser.get_all_group_index_to_group_name_mapping
  rw [bidir_eq p pfx hv]
  have hpairs : ((mergedMapping p pfx).insertionSort
      (fun a b => a.1 ≤ b.1)).Pairwise (fun a b => a.1 ≤ b.1) := by
    haveI : IsTotal (Nat × String) (fun a b => a.1 ≤ b.1) :=
      ⟨fun a b => le_total a.1 b.1⟩
    haveI : IsTrans (Nat × String) (fun a b => a.1 ≤ b.1) :=
      ⟨fun a b c hab hbc => le_trans hab hbc⟩
    exact List.sorted_insertionSort _ _
  have hsorted : ((((mergedMapping p pfx).insertionSort
      (fun a b => a.1 ≤ b.1)).map Prod.fst)).Sorted (· ≤ ·) :=
    hpairs.map _ (fun a b hab => hab)
  have hperm : ((((mergedMapping p pfx).insertionSort
      (fun a b => a.1 ≤ b.1)).map Prod.fst)).Perm (List.range' 1 p.groups) :=
    ((List.perm_insertionSort _ _).map _).trans (mergedMapping_keys_perm p pfx hv)
  have hrs : (List.range' 1 p.groups).Sorted (· ≤ ·) :=
    (List.pairwise_lt_range' _ _).imp (fun h => Nat.le_of_lt h)
  exact List.eq_of_perm_of_sorted hperm hsorted hrs

theorem bidir_snd_keys_nodup (p : RePattern) (pfx : String) (hv : p.valid) :
    (((RegExParser.init p pfx).get_all_group_index_to_group_name_mapping).map
      Prod.fst).Nodup := by
  rw [bidir_snd_map_fst p pfx hv]
  exact List.nodup_range' _ _

theorem bidir_snd_lookup_iff (p : RePattern) (pfx : String) (hv : p.valid)
    (i : Nat) (nm : String) :
    ((RegExParser.init p pfx).get_all_group_index_to_group_name_mapping).lookup i
      = some nm ↔ (i, nm) ∈ mergedMapping p pfx := by
  rw [lookup_eq_some_iff_mem _ (bidir_snd_keys_nodup p pfx hv)]
  unfold RegExParser.get_all_group_index_to_group_name_mapping
  rw [bidir_eq p pfx hv]
  exact (List.perm_insertionSort _ _).mem_iff

theorem bidir_fst_eq_swap (p : RePattern) (pfx : String) (hv : p.valid)
    (hinj : (((RegExParser.init p pfx).get_all_group_index_to_group_name_mapping).map
      Prod.snd).Nodup) :
    (RegExParser.init p pfx).get_all_group_name_to_group_index_mapping =
      ((RegExParser.init p pfx).get_all_group_index_to_group_name_mapping).map
        (fun kv => (kv.2, kv.1)) := by
  unfold RegExParser.get_all_group_index_to_group_name_mapping at hinj
  unfold RegExParser.get_all_group_name_to_group_index_mapping
    RegExParser.get_all_group_index_to_group_name_mapping
  rw [bidir_eq p pfx hv] at hinj ⊢
  apply pyDictOf_eq_self
  have hswap : ((((mergedMapping p pfx).insertionSort
      (fun a b => a.1 ≤ b.1)).map (fun kv : Nat × String => (kv.2, kv.1))).map
      Prod.fst) = (((mergedMapping p pfx).insertionSort
      (fun a b => a.1 ≤ b.1)).map Prod.snd) := by
    simp [List.map_map, Function.comp_def]
  rw [hswap]
  exact hinj

/-- Formal statement of claim C2 for a given pattern and unnamed-group name
prefix: the two returned dictionaries are mutual inverses as lookup tables, and
the index-to-name dictionary has keys exactly 1 .. group count in ascending
order. -/
def bidirectionalMappingsMutuallyInverse (p : RePattern) (pfx : String) : Prop :=
  (∀ nm i,
    (RegExParser.init p pfx).get_all_group_name_to_group_index_mapping.lookup nm
      = some i →
    (RegExParser.init p pfx).get_all_group_index_to_group_name_mapping.lookup i
      = some nm) ∧
  (∀ i nm,
    (RegExParser.init p pfx).get_all_group_index_to_group_name_mapping.lookup i
      = some nm →
    (RegExParser.init p pfx).get_all_group_name_to_group_index_mapping.lookup nm
      = some i) ∧
  (RegExParser.init p pfx).get_all_group_index_to_group_name_mapping.map
    Prod.fst = List.range' 1 p.groups

/-- C3: for every compiled regex pattern, `RegExParser` assigns to each group
index that carries a `(?P<name>)` name exactly that name, to each remaining
(unnamed) group index the name formed by concatenating the unnamed-group name
prefix with the decimal group index, and every group index from 1 to the
pattern's group count receives exactly one name (the keys of the index-to-name
mapping are exactly 1 .. group count, each occurring once). -/
theorem regex_parser_assigns_group_names (p : RePattern) (pfx : String)
    (hv : p.valid) :
    (∀ nm i, (nm, i) ∈ p.groupindex →
      (RegExParser.init p pfx).get_all_group_index_to_group_name_mapping.lookup i
        = some nm) ∧
    (∀ i, 1 ≤ i → i ≤ p.groups → i ∉ p.groupindex.map Prod.snd →
      (RegExParser.init p pfx).get_all_group_index_to_group_name_mapping.lookup i
        = some (pfx ++ toString i)) ∧
    (RegExParser.init p pfx).get_all_group_index_to_group_name_mapping.map
      Prod.fst = List.range' 1 p.groups := by
  refine ⟨?_, ?_, bidir_snd_map_fst p pfx hv⟩
  · intro nm i hmem
    rw [bidir_snd_lookup_iff p pfx hv]
    unfold mergedMapping
    apply List.mem_append_left
    unfold namedInvMapping
    exact List.mem_map.mpr ⟨(nm, i), hmem, rfl⟩
  · intro i h1 h2 hnot
    rw [bidir_snd_lookup_iff p pfx hv]
    unfold mergedMapping
    apply List.mem_append_right
    unfold commonMapping
    apply List.mem_map.mpr
    refine ⟨i, ?_, rfl⟩
    apply List.mem_filter.mpr
    refine ⟨List.mem_range'_1.mpr ⟨h1, by omega⟩, ?_⟩
    simp only [Bool.not_eq_eq_eq_not, Bool.not_true, Bool.not_eq_true]
    simpa [List.elem_iff] using hnot

/-- Witness for C3 at the concrete pattern `(.*)-(?P<year>\d+)-(.*)` shape
(3 groups, group 2 named "year") with the data connector's default prefix. -/
theorem regex_parser_assigns_group_names_witness :
    RePattern.valid ⟨3, [("year", 2)]⟩ ∧
    (RegExParser.init ⟨3, [("year", 2)]⟩
      "batch_request_param_").get_all_group_index_to_group_name_mapping.map
        Prod.fst = List.range' 1 3 :=
  ⟨by decide, (regex_parser_assigns_group_names ⟨3, [("year", 2)]⟩
    "batch_request_param_" (by decide)).2.2⟩

/-- C2 counterexample: the pattern `(?P<unnamed_group_2>a)(b)` compiles in
Python (2 groups, group 1 named "unnamed_group_2").  With the default unnamed
group name prefix, group 2 also receives the name "unnamed_group_2", so the
index-to-name mapping sends 1 to "unnamed_group_2" while the name-to-index
mapping sends "unnamed_group_2" back to 2: the mappings are not mutual
inverses on group indexes. -/
theorem bidirectional_mappings_not_always_mutual_inverses :
    ¬ bidirectionalMappingsMutuallyInverse ⟨2, [("unnamed_group_2", 1)]⟩
      "unnamed_group_" := by
  intro h
  have h1 : (RegExParser.init ⟨2, [("unnamed_group_2", 1)]⟩
      "unnamed_group_").get_all_group_index_to_group_name_mapping.lookup 1
      = some "unnamed_group_2" := by decide
  have h2 := h.2.1 1 "unnamed_group_2" h1
  have h3 : (RegExParser.init ⟨2, [("unnamed_group_2", 1)]⟩
      "unnamed_group_").get_all_group_name_to_group_index_mapping.lookup
      "unnamed_group_2" = some 2 := by decide
  rw [h2] at h3
  exact absurd h3 (by decide)

/-- C2 (amended): for every compiled regex pattern whose assigned group names
are pairwise distinct (that is, no `(?P<name>)` group name collides with the
name synthesized for another group, which the original claim implicitly
assumed), the two dictionaries returned by
`get_all_group_names_to_group_indexes_bidirectional_mappings` are mutual
inverses, and the index-to-name map's keys are exactly the integers 1 through
the pattern's total group count in ascending order; the keys clause holds for
every valid pattern. -/
theorem bidirectional_mappings_mutual_inverses_of_distinct_names
    (p : RePattern) (pfx : String) (hv : p.valid)
    (hinj : (((RegExParser.init p pfx).get_all_group_index_to_group_name_mapping).map
      Prod.snd).Nodup) :
    bidirectionalMappingsMutuallyInverse p pfx := by
  have hswap := bidir_fst_eq_swap p pfx hv hinj
  have hkeys1 : (((RegExParser.init p pfx).get_all_group_name_to_group_index_mapping).map
      Prod.fst).Nodup := by
    rw [hswap]
    simpa [List.map_map, Function.comp_def] using hinj
  refine ⟨?_, ?_, bidir_snd_map_fst p pfx hv⟩
  · intro nm i hl
    have hmem : (nm, i) ∈
        (RegExParser.init p pfx).get_all_group_name_to_group_index_mapping :=
      mem_of_lookup_eq_some _ _ _ hl
    rw [hswap] at hmem
    rcases List.mem_map.mp hmem with ⟨kv, hkv, hkveq⟩
    have hfst : kv.2 = nm := congrArg Prod.fst hkveq
    have hsnd : kv.1 = i := congrArg Prod.snd hkveq
    rw [lookup_eq_some_iff_mem _ (bidir_snd_keys_nodup p pfx hv)]
    have : kv = (i, nm) := by
      obtain ⟨a, b⟩ := kv
      simp only at hfst hsnd
      rw [hfst, hsnd]
    rw [← this]
    exact hkv
  · intro i nm hl
    have hmem : (i, nm) ∈
        (RegExParser.init p pfx).get_all_group_index_to_group_name_mapping :=
      mem_of_lookup_eq_some _ _ _ hl
    rw [lookup_eq_some_iff_mem _ hkeys1, hswap]
    exact List.mem_map.mpr ⟨(i, nm), hmem, rfl⟩

/-- Witness for the amended C2 at the concrete pattern with 3 groups of which
group 2 is named "year": the hypotheses hold and the mappings are mutual
inverses there. -/
theorem bidirectional_mappings_mutual_inverses_witness :
    (RePattern.valid ⟨3, [("year", 2)]⟩ ∧
      (((RegExParser.init ⟨3, [("year", 2)]⟩
        "batch_request_param_").get_all_group_index_to_group_name_mapping).map
        Prod.snd).Nodup) ∧
    bidirectionalMappingsMutuallyInverse ⟨3, [("year", 2)]⟩
      "batch_request_param_" :=
  ⟨⟨by decide, by decide⟩,
    bidirectional_mappings_mutual_inverses_of_distinct_names ⟨3, [("year", 2)]⟩
      "batch_request_param_" (by decide) (by decide)⟩

/-!
Embedding of `FilePathDataConnector`
(src: `great_expectations/experimental/datasources/data_asset/data_connector/file_path_data_connector.py`).

Batch identifiers are modelled as association lists from group names to the
matched string values.  The helper functions
`batch_definition_matches_batch_request` and the batch filter built by
`build_batch_filter` live in modules that are not part of this source excerpt;
they are modelled from the spec below.
-/

/-- Model of `BatchDefinition`: a record of datasource name, data connector
name, data asset name and the batch identifiers dictionary. -/
structure BatchDefinition where
  datasource_name : String
  data_connector_name : String
  data_asset_name : String
  batch_identifiers : List (String × String)
deriving DecidableEq, Repr

/-- Model of the experimental `BatchRequest`: datasource name, data asset name
and an optional options dictionary whose values may be `None`. -/
structure BatchRequest where
  datasource_name : String
  data_asset_name : String
  options : Option (List (String × Option String))
deriving DecidableEq, Repr

/-- Modelled from the spec: `batch_definition_matches_batch_request` (imported
from `experimental/datasources/data_asset/data_connector/util.py`, which is not
part of this source excerpt).  Per the spec's "resolves batch requests against
that cache with ... filter matching", a batch definition matches a batch
request when the datasource and data asset names agree and every option with a
non-None value equals the corresponding batch identifier. -/
def batch_definition_matches_batch_request (batch_definition : BatchDefinition)
    (batch_request : BatchRequest) : Bool :=
  batch_definition.datasource_name == batch_request.datasource_name &&
  batch_definition.data_asset_name == batch_request.data_asset_name &&
  (match batch_request.options with
   | none => true
   | some opts => opts.all (fun kv =>
       match kv.2 with
       | none => true
       | some v => batch_definition.batch_identifiers.lookup kv.1 == some v))

/-- Modelled from the spec: the selection performed by the `BatchFilter` that
`build_batch_filter` builds from
`batch_filter_parameters = batch_request.options.copy()` (module
`datasource/data_connector/batch_filter.py`, not part of this source excerpt).
A batch definition is kept when every batch filter parameter key is present
among its batch identifiers with exactly the parameter's value. -/
def passesBatchFilter (batch_filter_parameters : List (String × Option String))
    (batch_definition : BatchDefinition) : Bool :=
  batch_filter_parameters.all (fun kv =>
    match kv.2 with
    | none => false
    | some v => batch_definition.batch_identifiers.lookup kv.1 == some v)

/-- Selection of the modelled batch filter over a batch-definition list. -/
def select_from_data_connector_query
    (batch_filter_parameters : List (String × Option String))
    (batch_definition_list : List BatchDefinition) : List BatchDefinition :=
  batch_definition_list.filter (passesBatchFilter batch_filter_parameters)

/-- Data-references cache of a `FilePathDataConnector`: a Python dict mapping
each data reference to the optional list of batch definitions it produced. -/
abbrev DataReferencesCache : Type := List (String × Option (List BatchDefinition))

/-- Embedding of `FilePathDataConnector._refresh_data_references_cache`: the
cache is reset to empty and each data reference returned by
`get_data_references()` is assigned the batch-definition list produced by the
regex mapper.  The enumeration (`get_data_references`, defined on the
`DataConnector` base class outside this excerpt) and the mapper
(`map_data_reference_string_to_batch_definition_list_using_regex`, also outside
this excerpt) are passed as parameters. -/
def _refresh_data_references_cache
    (data_references : List String)
    (map_data_reference : String → Option (List BatchDefinition)) :
    DataReferencesCache :=
  data_references.foldl
    (fun cache data_reference =>
      pyDictInsert cache data_reference (map_data_reference data_reference))
    []

/-- Embedding of `FilePathDataConnector.get_data_reference_count`. -/
def get_data_reference_count (cache : DataReferencesCache) : Nat :=
  cache.length

/-- Embedding of `FilePathDataConnector.get_unmatched_data_references`: the
keys of the cache entries whose value is `None`. -/
def get_unmatched_data_references (cache : DataReferencesCache) : List String :=
  (cache.filter (fun element => element.2 == none)).map Prod.fst

/-- Embedding of `FilePathDataConnector._get_batch_definition_list_from_cache`:
the first batch definition of every non-None cached list.  (Python indexes with
`[0]`; the mapper only ever stores non-empty lists, so `List.head?` models it;
an empty stored list is skipped rather than raising.) -/
def _get_batch_definition_list_from_cache (cache : DataReferencesCache) :
    List BatchDefinition :=
  cache.filterMap
    (fun kv => kv.2.bind (fun batch_definitions => batch_definitions.head?))

/-- Step of the dedup-while-matching loop in
`get_batch_definition_list_from_batch_request`: the accumulator list plays the
role of both `batch_definition_list` and `batch_definition_set` (they always
hold the same elements). -/
def addMatchingBatchDefinition (batch_request : BatchRequest)
    (acc : List BatchDefinition) (batch_definition : BatchDefinition) :
    List BatchDefinition :=
  if batch_definition_matches_batch_request batch_definition batch_request
      && !(acc.contains batch_definition) then
    acc ++ [batch_definition]
  else acc

/-- Embedding of
`FilePathDataConnector.get_batch_definition_list_from_batch_request` for a
connector whose cache is in its post-refresh state (the method refreshes an
empty cache before reading it, and refreshing is idempotent for a fixed
filesystem). -/
def get_batch_definition_list_from_batch_request
    (cache : DataReferencesCache) (batch_request : BatchRequest) :
    List BatchDefinition :=
  let batch_definition_list :=
    (_get_batch_definition_list_from_cache cache).foldl
      (addMatchingBatchDefinition batch_request) []
  match batch_request.options with
  | none => batch_definition_list
  | some opts => select_from_data_connector_query opts batch_definition_list

/-- First-occurrence deduplication, accumulator-passing form: mirrors the
list-plus-set loop of `get_batch_definition_list_from_batch_request`. -/
def dedupFirstAux {α : Type} [BEq α] : List α → List α → List α
  | acc, [] => acc
  | acc, x :: xs =>
    if acc.contains x then dedupFirstAux acc xs else dedupFirstAux (acc ++ [x]) xs

/-- Keep the first occurrence of every element, in first-occurrence order. -/
def dedupFirst {α : Type} [BEq α] (l : List α) : List α := dedupFirstAux [] l

theorem mem_dedupFirstAux {α : Type} [BEq α] [LawfulBEq α] (l : List α) :
    ∀ acc x, x ∈ dedupFirstAux acc l ↔ x ∈ acc ∨ x ∈ l := by
  induction l with
  | nil => intro acc x; simp [dedupFirstAux]
  | cons y ys ih =>
    intro acc x
    rw [dedupFirstAux]
    by_cases hc : acc.contains y
    · rw [if_pos hc, ih]
      constructor
      · intro h
        rcases h with h | h
        · exact Or.inl h
        · exact Or.inr (List.mem_cons_of_mem _ h)
      · intro h
        rcases h with h | h
        · exact Or.inl h
        · rcases List.mem_cons.mp h with h1 | h1
          · subst h1
            exact Or.inl (by simpa using hc)
          · exact Or.inr h1
    · rw [if_neg hc, ih]
      simp only [List.mem_append, List.mem_singleton, List.mem_cons]
      tauto
  
theorem nodup_dedupFirstAux {α : Type} [BEq α] [LawfulBEq α] (l : List α) :
    ∀ acc, acc.Nodup → (dedupFirstAux acc l).Nodup := by
  induction l with
  | nil => intro acc h; simpa [dedupFirstAux] using h
  | cons y ys ih =>
    intro acc hacc
    rw [dedupFirstAux]
    by_cases hc : acc.contains y
    · rw [if_pos hc]
      exact ih acc hacc
    · rw [if_neg hc]
      apply ih
      apply List.Nodup.append hacc (List.nodup_singleton y)
      intro a ha hay
      rcases List.mem_singleton.mp hay with rfl
      exact hc (by simpa using ha)

theorem dedupFirstAux_cons {α : Type} [BEq α] (acc : List α) (x : α)
    (xs : List α) :
    dedupFirstAux acc (x :: xs) =
      if acc.contains x then dedupFirstAux acc xs
      else dedupFirstAux (acc ++ [x]) xs := rfl

theorem filter_dedupFirstAux {α : Type} [BEq α] [LawfulBEq α] (p : α → Bool)
    (l : List α) :
    ∀ acc, (dedupFirstAux acc l).filter p
      = dedupFirstAux (acc.filter p) (l.filter p) := by
  induction l with
  | nil => intro acc; simp [dedupFirstAux]
  | cons y ys ih =>
    intro acc
    by_cases hc : acc.contains y
    · have hcy : y ∈ acc := by simpa [List.elem_iff] using hc
      rw [dedupFirstAux_cons, if_pos hc, ih]
      by_cases hp : p y
      · have hc2 : (acc.filter p).contains y = true := by
          simp only [List.elem_iff]
          exact List.mem_filter.mpr ⟨hcy, hp⟩
        conv_rhs => rw [List.filter_cons_of_pos hp]
        rw [dedupFirstAux_cons, if_pos hc2]
      · conv_rhs => rw [List.filter_cons_of_neg (by simpa using hp)]
    · have hcy : y ∉ acc := by simpa [List.elem_iff] using hc
      rw [dedupFirstAux_cons, if_neg hc, ih, List.filter_append]
      have hc2 : ¬ ((acc.filter p).contains y = true) := by
        intro h
        exact hcy (List.mem_filter.mp (by simpa [List.elem_iff] using h)).1
      by_cases hp : p y
      · conv_lhs => rw [show List.filter p [y] = [y] from by simp [hp]]
        conv_rhs => rw [List.filter_cons_of_pos hp]
        rw [dedupFirstAux_cons, if_neg hc2]
      · conv_lhs => rw [show List.filter p [y] = ([] : List α) from by simp [hp]]
        conv_rhs => rw [List.filter_cons_of_neg (by simpa using hp)]
        rw [List.append_nil]

theorem foldl_addMatching_eq (batch_request : BatchRequest)
    (l : List BatchDefinition) :
    ∀ acc, l.foldl (addMatchingBatchDefinition batch_request) acc =
      dedupFirstAux acc (l.filter
        (fun bd => batch_definition_matches_batch_request bd batch_request)) := by
  induction l with
  | nil => intro acc; simp [dedupFirstAux]
  | cons y ys ih =>
    intro acc
    rw [List.foldl_cons, ih (addMatchingBatchDefinition batch_request acc y)]
    have hq : ∀ z : BatchDefinition,
        (fun bd => batch_definition_matches_batch_request bd batch_request) z
          = batch_definition_matches_batch_request z batch_request :=
      fun z => rfl
    by_cases hm : batch_definition_matches_batch_request y batch_request
    · rw [List.filter_cons_of_pos (by simpa [hq] using hm), dedupFirstAux_cons]
      by_cases hc : acc.contains y
      · rw [if_pos hc]
        have hcy : y ∈ acc := by simpa [List.elem_iff] using hc
        have : addMatchingBatchDefinition batch_request acc y = acc := by
          simp [addMatchingBatchDefinition, hm, hcy]
        rw [this]
      · rw [if_neg hc]
        have hcy : y ∉ acc := by simpa [List.elem_iff] using hc
        have : addMatchingBatchDefinition batch_request acc y = acc ++ [y] := by
          simp [addMatchingBatchDefinition, hm, hcy]
        rw [this]
    · rw [List.filter_cons_of_neg (by simpa [hq] using hm)]
      have : addMatchingBatchDefinition batch_request acc y = acc := by
        simp [addMatchingBatchDefinition, hm]
      rw [this]

/-- Narrowing predicate applied after the matching loop: trivial when the
request carries no options, the batch-filter predicate otherwise. -/
def optionsNarrowing (batch_request : BatchRequest)
    (batch_definition : BatchDefinition) : Bool :=
  match batch_request.options with
  | none => true
  | some opts => passesBatchFilter opts batch_definition

theorem get_batch_definition_list_eq (cache : DataReferencesCache)
    (batch_request : BatchRequest) :
    get_batch_definition_list_from_batch_request cache batch_request =
      ((dedupFirst (_get_batch_definition_list_from_cache cache)).filter
        (fun bd => batch_definition_matches_batch_request bd batch_request)).filter
        (optionsNarrowing batch_request) := by
  unfold get_batch_definition_list_from_batch_request
  rw [foldl_addMatching_eq]
  have hcore : dedupFirstAux []
      ((_get_batch_definition_list_from_cache cache).filter
        (fun bd => batch_definition_matches_batch_request bd batch_request)) =
      (dedupFirst (_get_batch_definition_list_from_cache cache)).filter
        (fun bd => batch_definition_matches_batch_request bd batch_request) := by
    have h2 := (filter_dedupFirstAux
      (fun bd => batch_definition_matches_batch_request bd batch_request)
      (_get_batch_definition_list_from_cache cache) []).symm
    simpa [dedupFirst] using h2
  rw [hcore]
  unfold optionsNarrowing
  cases batch_request.options with
  | none => simp
  | some opts =>
    unfold select_from_data_connector_query
    rfl

theorem mem_get_batch_definition_list (cache : DataReferencesCache)
    (batch_request : BatchRequest) (bd : BatchDefinition) :
    bd ∈ get_batch_definition_list_from_batch_request cache batch_request ↔
      bd ∈ _get_batch_definition_list_from_cache cache ∧
      batch_definition_matches_batch_request bd batch_request = true ∧
      optionsNarrowing batch_request bd = true := by
  rw [get_batch_definition_list_eq]
  simp only [List.mem_filter]
  constructor
  · intro h
    refine ⟨?_, h.1.2, h.2⟩
    have := h.1.1
    unfold dedupFirst at this
    rw [mem_dedupFirstAux] at this
    simpa using this
  · intro h
    refine ⟨⟨?_, h.2.1⟩, h.2.2⟩
    unfold dedupFirst
    rw [mem_dedupFirstAux]
    exact Or.inr h.1

theorem nodup_get_batch_definition_list (cache : DataReferencesCache)
    (batch_request : BatchRequest) :
    (get_batch_definition_list_from_batch_request cache batch_request).Nodup := by
  rw [get_batch_definition_list_eq]
  apply List.Nodup.filter
  apply List.Nodup.filter
  exact nodup_dedupFirstAux _ [] List.nodup_nil

/-- C1: for every batch request,
`FilePathDataConnector.get_batch_definition_list_from_batch_request` returns
exactly the cached batch definitions (the heads of the non-None cache entries)
that satisfy `batch_definition_matches_batch_request`, further narrowed by the
batch filter built from `batch_request.options` when options is not None, with
duplicates removed so that each batch definition appears at most once, in the
order of its first occurrence in the cache iteration: the result is the
first-occurrence deduplication of the cached list restricted by both
predicates, it has no duplicates, and membership is exactly
cache-membership + matching + narrowing. -/
theorem get_batch_definition_list_from_batch_request_spec
    (cache : DataReferencesCache) (batch_request : BatchRequest) :
    get_batch_definition_list_from_batch_request cache batch_request =
      ((dedupFirst (_get_batch_definition_list_from_cache cache)).filter
        (fun bd => batch_definition_matches_batch_request bd batch_request)).filter
        (optionsNarrowing batch_request) ∧
    (get_batch_definition_list_from_batch_request cache batch_request).Nodup ∧
    ∀ bd, bd ∈ get_batch_definition_list_from_batch_request cache batch_request ↔
      (bd ∈ _get_batch_definition_list_from_cache cache ∧
        batch_definition_matches_batch_request bd batch_request = true ∧
        optionsNarrowing batch_request bd = true) :=
  ⟨get_batch_definition_list_eq cache batch_request,
    nodup_get_batch_definition_list cache batch_request,
    mem_get_batch_definition_list cache batch_request⟩

/-- Example fixtures used by the concrete witnesses below. -/
def exampleBatchDefinition1 : BatchDefinition :=
  ⟨"my_datasource", "experimental", "my_asset", [("year", "2020")]⟩

def exampleBatchDefinition2 : BatchDefinition :=
  ⟨"my_datasource", "experimental", "my_asset", [("year", "2021")]⟩

def exampleCache : DataReferencesCache :=
  [("alpha-2020.csv", some [exampleBatchDefinition1]),
   ("readme.txt", none),
   ("beta-2020.csv", some [exampleBatchDefinition1]),
   ("alpha-2021.csv", some [exampleBatchDefinition2])]

def exampleRequest : BatchRequest :=
  ⟨"my_datasource", "my_asset", some [("year", some "2020")]⟩

/-- Witness for C1 at a concrete cache and batch request. -/
theorem get_batch_definition_list_from_batch_request_spec_witness :
    (get_batch_definition_list_from_batch_request exampleCache
      exampleRequest).Nodup :=
  (get_batch_definition_list_from_batch_request_spec exampleCache
    exampleRequest).2.1

/-- C9: `FilePathDataConnector` considers at most one batch definition per data
reference when resolving batch requests: every batch definition returned by
`get_batch_definition_list_from_batch_request` is the first element of some
non-None cached batch-definition list, so a batch definition that is not the
head of any cached list (in particular one appearing only beyond the first
position of the list a data reference mapped to) is never returned. -/
theorem only_first_cached_batch_definition_returned
    (cache : DataReferencesCache) (batch_request : BatchRequest) :
    (∀ bd, bd ∈ get_batch_definition_list_from_batch_request cache batch_request →
      ∃ ref l, (ref, some l) ∈ cache ∧ l.head? = some bd) ∧
    (∀ bd, (∀ ref l, (ref, some l) ∈ cache → l.head? ≠ some bd) →
      bd ∉ get_batch_definition_list_from_batch_request cache batch_request) := by
  have hfrom : ∀ bd, bd ∈ _get_batch_definition_list_from_cache cache →
      ∃ ref l, (ref, some l) ∈ cache ∧ l.head? = some bd := by
    intro bd hmem
    unfold _get_batch_definition_list_from_cache at hmem
    rcases List.mem_filterMap.mp hmem with ⟨kv, hkv, hf⟩
    rcases Option.bind_eq_some.mp hf with ⟨l, hl, hhead⟩
    refine ⟨kv.1, l, ?_, hhead⟩
    have : kv = (kv.1, some l) := by
      obtain ⟨a, b⟩ := kv
      simp only at hl
      rw [hl]
    rw [← this]
    exact hkv
  constructor
  · intro bd hmem
    exact hfrom bd ((mem_get_batch_definition_list cache batch_request bd).mp
      hmem).1
  · intro bd hnot hmem
    rcases hfrom bd ((mem_get_batch_definition_list cache batch_request
      bd).mp hmem).1 with ⟨ref, l, hrl, hhead⟩
    exact hnot ref l hrl hhead

/-- Witness for C9: a cache whose single data reference maps to a two-element
batch-definition list; the second element is never returned. -/
theorem only_first_cached_batch_definition_returned_witness :
    exampleBatchDefinition2 ∉ get_batch_definition_list_from_batch_request
      [("alpha.csv", some [exampleBatchDefinition1, exampleBatchDefinition2])]
      ⟨"my_datasource", "my_asset", none⟩ :=
  (only_first_cached_batch_definition_returned
    [("alpha.csv", some [exampleBatchDefinition1, exampleBatchDefinition2])]
    ⟨"my_datasource", "my_asset", none⟩).2 exampleBatchDefinition2
    (by
      intro ref l hmem
      have : ref = "alpha.csv" ∧
          l = [exampleBatchDefinition1, exampleBatchDefinition2] := by
        simpa using hmem
      rw [this.2]
      decide)

theorem refresh_eq_map (refs : List String)
    (f : String → Option (List BatchDefinition)) (hnd : refs.Nodup) :
    _refresh_data_references_cache refs f = refs.map (fun r => (r, f r)) := by
  unfold _refresh_data_references_cache
  have h1 : refs.foldl (fun cache r => pyDictInsert cache r (f r)) [] =
      (refs.map (fun r => (r, f r))).foldl
        (fun cache kv => pyDictInsert cache kv.1 kv.2) [] := by
    rw [List.foldl_map]
  rw [h1]
  have h2 : ((refs.map (fun r => (r, f r))).map Prod.fst) = refs := by
    simp [List.map_map, Function.comp_def]
  have h3 : pyDictOf (refs.map (fun r => (r, f r))) = refs.map (fun r => (r, f r)) := by
    apply pyDictOf_eq_self
    rw [h2]
    exact hnd
  exact h3

/-- C4: after `FilePathDataConnector` construction (whose `__init__` calls
`_refresh_data_references_cache`) and after every call to
`_refresh_data_references_cache`, the data-references cache holds as keys
exactly the data references enumerated by `get_data_references()` (passed as
`refs`; the enumerated filesystem paths are distinct), each key mapped to the
batch-definition list produced by matching the reference against the
configured regex (the mapper `f`), or to `None` when the reference does not
match; consequently `get_data_reference_count` returns the number of
enumerated references and `get_unmatched_data_references` returns exactly the
references mapped to `None`. -/
theorem refresh_data_references_cache_spec (refs : List String)
    (f : String → Option (List BatchDefinition)) (hnd : refs.Nodup) :
    (_refresh_data_references_cache refs f).map Prod.fst = refs ∧
    (∀ r bds, (r, bds) ∈ _refresh_data_references_cache refs f ↔
      r ∈ refs ∧ bds = f r) ∧
    get_data_reference_count (_refresh_data_references_cache refs f)
      = refs.length ∧
    get_unmatched_data_references (_refresh_data_references_cache refs f)
      = refs.filter (fun r => f r == none) := by
  rw [refresh_eq_map refs f hnd]
  refine ⟨?_, ?_, ?_, ?_⟩
  · simp [List.map_map, Function.comp_def]
  · intro r bds
    rw [List.mem_map]
    constructor
    · intro h
      rcases h with ⟨r2, hr2, heq⟩
      have hr : r2 = r := congrArg Prod.fst heq
      subst hr
      exact ⟨hr2, (congrArg Prod.snd heq).symm⟩
    · intro h
      exact ⟨r, h.1, by rw [h.2]⟩
  · simp [get_data_reference_count]
  · unfold get_unmatched_data_references
    rw [List.filter_map]
    simp [List.map_map, Function.comp_def]

/-- Witness for C4 at a concrete reference list and mapper. -/
def exampleMapper : String → Option (List BatchDefinition) :=
  fun r => if r = "alpha-2020.csv" then some [exampleBatchDefinition1] else none

theorem refresh_data_references_cache_spec_witness :
    (["alpha-2020.csv", "readme.txt"] : List String).Nodup ∧
    get_data_reference_count
      (_refresh_data_references_cache ["alpha-2020.csv", "readme.txt"]
        exampleMapper) = 2 ∧
    get_unmatched_data_references
      (_refresh_data_references_cache ["alpha-2020.csv", "readme.txt"]
        exampleMapper) = ["readme.txt"] := by
  refine ⟨by decide, (refresh_data_references_cache_spec
    ["alpha-2020.csv", "readme.txt"] exampleMapper (by decide)).2.2.1, ?_⟩
  rw [(refresh_data_references_cache_spec
    ["alpha-2020.csv", "readme.txt"] exampleMapper (by decide)).2.2.2]
  rfl

/-- Embedding of
`FilePathDataConnector._generate_batch_spec_parameters_from_batch_definition`.
The renderer `map_batch_definition_to_data_reference_string_using_regex`
(module `datasource/data_connector/util.py`, not part of this source excerpt)
and the abstract method `_get_full_file_path` are passed as parameters.  The
Python method reads and writes no connector state besides calling them, so the
data-references cache is threaded through unchanged; `if not path` on a string
means `path = ""`; raising `ValueError` is modelled with `Except.error`. -/
def _generate_batch_spec_parameters_from_batch_definition
    (render : BatchDefinition → String)
    (get_full_file_path : String → String)
    (batch_definition : BatchDefinition) (cache : DataReferencesCache) :
    Except String (List (String × String)) × DataReferencesCache :=
  let path := render batch_definition
  if path = "" then
    (Except.error "No data reference for data asset name matches the given batch identifiers from batch definition",
      cache)
  else
    (Except.ok [("path", get_full_file_path path)], cache)

/-- C6: `_generate_batch_spec_parameters_from_batch_definition` raises
`ValueError` exactly when the batch definition's identifiers cannot be
rendered through the configured regex into a non-empty data-reference path
(the renderer returns the empty string), and otherwise returns a dictionary
containing the full file path; the data-references cache is left unchanged in
either case. -/
theorem generate_batch_spec_parameters_spec
    (render : BatchDefinition → String)
    (get_full_file_path : String → String)
    (batch_definition : BatchDefinition) (cache : DataReferencesCache) :
    (_generate_batch_spec_parameters_from_batch_definition render
      get_full_file_path batch_definition cache).2 = cache ∧
    ((∃ e, (_generate_batch_spec_parameters_from_batch_definition render
      get_full_file_path batch_definition cache).1 = Except.error e) ↔
      render batch_definition = "") ∧
    (render batch_definition ≠ "" →
      (_generate_batch_spec_parameters_from_batch_definition render
        get_full_file_path batch_definition cache).1 =
        Except.ok [("path", get_full_file_path (render batch_definition))]) := by
  unfold _generate_batch_spec_parameters_from_batch_definition
  by_cases h : render batch_definition = ""
  · rw [if_pos h]
    refine ⟨rfl, ?_, ?_⟩
    · simp [h]
    · intro hne
      exact absurd h hne
  · rw [if_neg h]
    refine ⟨rfl, ?_, fun _ => rfl⟩
    simp [h]

/-- Concrete renderer used by the C6 witness. -/
def exampleRenderer : BatchDefinition → String :=
  fun bd => (bd.batch_identifiers.lookup "year").getD ""

/-- Witness for C6: with a renderer producing a non-empty path, the result is
`ok` with the full file path and the cache is unchanged; the error case is
also exercised via the equivalence at a batch definition that renders empty. -/
theorem generate_batch_spec_parameters_spec_witness :
    (_generate_batch_spec_parameters_from_batch_definition exampleRenderer
      (fun p => "/base/" ++ p) exampleBatchDefinition1 exampleCache).2 =
      exampleCache ∧
    (_generate_batch_spec_parameters_from_batch_definition exampleRenderer
      (fun p => "/base/" ++ p) exampleBatchDefinition1 exampleCache).1 =
      Except.ok [("path", "/base/2020")] :=
  ⟨(generate_batch_spec_parameters_spec exampleRenderer
      (fun p => "/base/" ++ p) exampleBatchDefinition1 exampleCache).1,
    (generate_batch_spec_parameters_spec exampleRenderer
      (fun p => "/base/" ++ p) exampleBatchDefinition1 exampleCache).2.2
      (by decide)⟩

/-!
Embedding of `FilesystemDataConnector`
(src: `great_expectations/experimental/datasources/data_asset/data_connector/filesystem_data_connector.py`).
-/

/-- Embedding of `FilesystemDataConnector._get_data_reference_list`: the glob
enumeration `get_filesystem_one_level_directory_glob_path_list` (module
`experimental/datasources/data_asset/data_connector/util.py`, not part of this
source excerpt) is passed as the `path_list` parameter; the method returns
`sorted(path_list)`.  Python's `sorted` on strings is a stable sort by the
lexicographic order, modelled by `List.insertionSort`, which is also stable. -/
def _get_data_reference_list (path_list : List String) : List String :=
  path_list.insertionSort (fun a b => a ≤ b)

/-- C8: `FilesystemDataConnector._get_data_reference_list` returns the globbed
path list sorted in ascending lexicographic order (a sorted permutation of the
glob result), so the data-references cache is populated in sorted path order
(its keys, after a refresh from the sorted list, are exactly that sorted
list). -/
theorem filesystem_data_reference_list_sorted (path_list : List String) :
    (_get_data_reference_list path_list).Sorted (· ≤ ·) ∧
    (_get_data_reference_list path_list).Perm path_list ∧
    ∀ f : String → Option (List BatchDefinition), path_list.Nodup →
      (_refresh_data_references_cache (_get_data_reference_list path_list)
        f).map Prod.fst = _get_data_reference_list path_list := by
  refine ⟨List.sorted_insertionSort _ _, List.perm_insertionSort _ _, ?_⟩
  intro f hnd
  have hnd2 : (_get_data_reference_list path_list).Nodup :=
    (List.perm_insertionSort _ _).nodup_iff.mpr hnd
  exact (refresh_data_references_cache_spec _ f hnd2).1

/-- Witness for C8 at a concrete unsorted path list. -/
theorem filesystem_data_reference_list_sorted_witness :
    _get_data_reference_list ["beta-2020.csv", "alpha-2020.csv"] =
      ["alpha-2020.csv", "beta-2020.csv"] ∧
    (_refresh_data_references_cache
      (_get_data_reference_list ["beta-2020.csv", "alpha-2020.csv"])
      exampleMapper).map Prod.fst =
      _get_data_reference_list ["beta-2020.csv", "alpha-2020.csv"] :=
  ⟨by
    simp [_get_data_reference_list, List.insertionSort, List.orderedInsert]
    decide,
    (filesystem_data_reference_list_sorted
      ["beta-2020.csv", "alpha-2020.csv"]).2.2 exampleMapper (by decide)⟩

/-!
Embedding of `_FilesystemDataAsset.build_batch_request`
(src: `great_expectations/experimental/datasources/filesystem_data_asset.py`)
and of the `BatchMetricComputation` record and schema
(src: `great_expectations/batch_metric_computations/batch_metric_computation.py`).
-/

/-- Model of the Python values stored in records and request options: `None`,
booleans, integers, strings, `uuid.UUID` objects (carried as their canonical
lowercase-hyphenated string form, which is what `str()` prints), `datetime`
objects (carried as their ISO-8601 `isoformat()` string) and string-valued
dictionaries. -/
inductive PyVal where
  | vNone : PyVal
  | vBool (b : Bool) : PyVal
  | vInt (n : Int) : PyVal
  | vStr (s : String) : PyVal
  | vUuid (s : String) : PyVal
  | vDateTime (s : String) : PyVal
  | vDict (entries : List (String × String)) : PyVal
deriving DecidableEq, Repr

/-- Python's `isinstance(value, str)`. -/
def PyVal.isStr : PyVal → Bool
  | PyVal.vStr _ => true
  | _ => false

/-- Result of `_FilePathDataAsset.build_batch_request` as observed here. -/
structure PyBatchRequest where
  datasource_name : String
  data_asset_name : String
  options : List (String × PyVal)
deriving DecidableEq, Repr

/-- Embedding of `_FilesystemDataAsset.build_batch_request`.  The dictionary
`m` stands for the asset's `_all_group_name_to_group_index_mapping` attribute
(assigned by `_FilePathDataAsset.__init__`, outside this excerpt, from
`RegExParser.get_all_group_name_to_group_index_mapping`).  Python's
`if options:` skips the validation loop when options is `None` or empty; the
loop raises `InvalidBatchRequestError` at the first option whose key is a
group name and whose value is not a string; otherwise the method delegates to
the parent `build_batch_request`, modelled from the spec as building the
request from the datasource name, the data asset name and `options or {}`. -/
def build_batch_request (m : List (String × Nat))
    (datasource_name data_asset_name : String)
    (options : Option (List (String × PyVal))) : Except String PyBatchRequest :=
  match options with
  | none => Except.ok ⟨datasource_name, data_asset_name, []⟩
  | some opts =>
    match opts.find? (fun kv => ((m.map Prod.fst).contains kv.1) && !(kv.2.isStr)) with
    | some _ => Except.error
        "All regex matching options must be strings. The value of an option is not a string"
    | none => Except.ok ⟨datasource_name, data_asset_name, opts⟩

/-- C10: `_FilesystemDataAsset.build_batch_request` raises
`InvalidBatchRequestError` if and only if the supplied options contain some
key that is a regex group name whose value is not a string; when every such
value is a string (or no options are supplied), it delegates to the parent
`build_batch_request` without raising. -/
theorem build_batch_request_spec (m : List (String × Nat))
    (datasource_name data_asset_name : String)
    (options : Option (List (String × PyVal))) :
    ((∃ e, build_batch_request m datasource_name data_asset_name options
        = Except.error e) ↔
      ∃ opts, options = some opts ∧
        ∃ kv ∈ opts, kv.1 ∈ m.map Prod.fst ∧ kv.2.isStr = false) ∧
    (∀ opts, options = some opts →
      (∀ kv ∈ opts, kv.1 ∈ m.map Prod.fst → kv.2.isStr = true) →
      build_batch_request m datasource_name data_asset_name options
        = Except.ok ⟨datasource_name, data_asset_name, opts⟩) ∧
    (options = none →
      build_batch_request m datasource_name data_asset_name options
        = Except.ok ⟨datasource_name, data_asset_name, []⟩) := by
  cases options with
  | none =>
    refine ⟨?_, ?_, fun _ => rfl⟩
    · constructor
      · intro h
        rcases h with ⟨e, he⟩
        simp [build_batch_request] at he
      · intro h
        rcases h with ⟨opts, hopts, _⟩
        exact absurd hopts (by simp)
    · intro opts hopts
      exact absurd hopts (by simp)
  | some opts =>
    rcases hfind : opts.find?
        (fun kv => (decide (kv.1 ∈ m.map Prod.fst)) && !(kv.2.isStr)) with _ | kv0
    · refine ⟨?_, ?_, by simp⟩
      · constructor
        · intro h
          rcases h with ⟨e, he⟩
          simp [build_batch_request, hfind] at he
        · intro h
          rcases h with ⟨opts2, hopts2, kv, hkv, hname, hstr⟩
          have hopts3 : opts2 = opts := by
            simpa using hopts2.symm
          subst hopts3
          have := List.find?_eq_none.mp hfind kv hkv
          simp only [Bool.and_eq_true, Bool.not_eq_eq_eq_not, Bool.not_true,
            not_and, decide_eq_true_eq] at this
          exact absurd (this hname) (by simp [hstr])
      · intro opts2 hopts2 hall
        have hopts3 : opts2 = opts := by simpa using hopts2.symm
        subst hopts3
        simp [build_batch_request, hfind]
    · have hp := List.find?_some hfind
      have hmem := List.mem_of_find?_eq_some hfind
      simp only [Bool.and_eq_true, Bool.not_eq_eq_eq_not, Bool.not_true,
        decide_eq_true_eq] at hp
      refine ⟨?_, ?_, by simp⟩
      · constructor
        · intro _
          exact ⟨opts, rfl, kv0, hmem, hp.1, hp.2⟩
        · intro _
          exact ⟨"All regex matching options must be strings. The value of an option is not a string",
            by simp [build_batch_request, hfind]⟩
      · intro opts2 hopts2 hall
        have hopts3 : opts2 = opts := by simpa using hopts2.symm
        subst hopts3
        have := hall kv0 hmem hp.1
        exact absurd this (by simp [hp.2])

/-- Witness for C10: string-valued regex options delegate to the parent
without raising. -/
theorem build_batch_request_spec_witness :
    build_batch_request [("year", 1)] "my_datasource" "my_asset"
      (some [("year", PyVal.vStr "2020")]) =
      Except.ok ⟨"my_datasource", "my_asset", [("year", PyVal.vStr "2020")]⟩ :=
  (build_batch_request_spec [("year", 1)] "my_datasource" "my_asset"
    (some [("year", PyVal.vStr "2020")])).2.1 [("year", PyVal.vStr "2020")]
    rfl (by decide)

/-!
Embedding of `PolarsDataSampler`
(src: `great_expectations/execution_engine/split_and_sample/polars_data_sampler.py`).

A polars dataframe is modelled as a list of rows, each row an association list
from column names to (integer) cell values — the sampling strategies only read
one named column per call.  `BatchSpec` is modelled by its optional
`sampling_kwargs` dictionary.  Errors raised by the helpers (`SamplerError`,
`ExecutionEngineError`, missing-column errors) are modelled with
`Except.error`.
-/

/-- Values appearing in `sampling_kwargs`: `None`, integers, floats (kept as
their literal representation; no float arithmetic is performed by the
sampler itself), strings and integer lists. -/
inductive KwVal where
  | kNone : KwVal
  | kInt (n : Int) : KwVal
  | kFloat (floatRepr : String) : KwVal
  | kStr (s : String) : KwVal
  | kIntList (l : List Int) : KwVal
deriving DecidableEq, Repr

abbrev PolarsRow : Type := List (String × Int)
abbrev PolarsDataFrame : Type := List PolarsRow
abbrev PolarsBatchSpec : Type := Option (List (String × KwVal))

/-- Modelled from the spec: `DataSampler.verify_batch_spec_sampling_kwargs_exists`
(module `execution_engine/split_and_sample/data_sampler.py`, outside this
excerpt) raises `SamplerError` when the batch spec carries no
`sampling_kwargs`. -/
def verify_batch_spec_sampling_kwargs_exists (batch_spec : PolarsBatchSpec) :
    Except String (List (String × KwVal)) :=
  match batch_spec with
  | none => Except.error "SamplerError: Please make sure to provide sampling_kwargs in addition to your sampling_method"
  | some sampling_kwargs => Except.ok sampling_kwargs

/-- Modelled from the spec: `DataSampler.verify_batch_spec_sampling_kwargs_key_exists`
raises `SamplerError` when the given key is missing from `sampling_kwargs`. -/
def verify_batch_spec_sampling_kwargs_key_exists (key : String)
    (sampling_kwargs : List (String × KwVal)) : Except String Unit :=
  if (sampling_kwargs.map Prod.fst).contains key then Except.ok ()
  else Except.error "SamplerError: Please provide the key in sampling_kwargs"

/-- Modelled from the spec: `DataSampler.get_sampling_kwargs_value_or_default`
returns the value stored under the key, or the default when absent. -/
def get_sampling_kwargs_value_or_default (batch_spec : PolarsBatchSpec)
    (sampling_kwargs_key : String) (default_value : KwVal) : KwVal :=
  match batch_spec with
  | none => default_value
  | some sampling_kwargs =>
    (sampling_kwargs.lookup sampling_kwargs_key).getD default_value

/-- Embedding of `PolarsDataSampler.sample_using_limit`: verifies the kwargs
and returns `df.head(n)`, the first `n` rows. -/
def sample_using_limit (batch_spec : PolarsBatchSpec)
    (df : PolarsDataFrame) : Except String PolarsDataFrame := do
  let sampling_kwargs ← verify_batch_spec_sampling_kwargs_exists batch_spec
  let _ ← verify_batch_spec_sampling_kwargs_key_exists "n" sampling_kwargs
  match sampling_kwargs.lookup "n" with
  | some (KwVal.kInt n) => Except.ok (df.take n.toNat)
  | _ => Except.error "TypeError: head expects an integer"

/-- Embedding of `PolarsDataSampler.sample_using_random`: reads `p` (default
0.1) and delegates wholesale to `df.sample(frac=p)`, modelled by the oracle
`polars_sample` since the random selection lives entirely inside polars. -/
def sample_using_random
    (polars_sample : PolarsDataFrame → KwVal → PolarsDataFrame)
    (batch_spec : PolarsBatchSpec) (df : PolarsDataFrame) :
    Except String PolarsDataFrame :=
  let p := get_sampling_kwargs_value_or_default batch_spec "p"
    (KwVal.kFloat "0.1")
  Except.ok (polars_sample df p)

/-- Embedding of `PolarsDataSampler.sample_using_mod`: keeps the rows whose
value in the named column has the given remainder modulo `mod`.  A missing
column, or kwargs of the wrong type, raise. -/
def sample_using_mod (batch_spec : PolarsBatchSpec)
    (df : PolarsDataFrame) : Except String PolarsDataFrame := do
  let sampling_kwargs ← verify_batch_spec_sampling_kwargs_exists batch_spec
  let _ ← verify_batch_spec_sampling_kwargs_key_exists "column_name" sampling_kwargs
  let _ ← verify_batch_spec_sampling_kwargs_key_exists "mod" sampling_kwargs
  let _ ← verify_batch_spec_sampling_kwargs_key_exists "value" sampling_kwargs
  match get_sampling_kwargs_value_or_default batch_spec "column_name" KwVal.kNone,
      get_sampling_kwargs_value_or_default batch_spec "mod" KwVal.kNone,
      get_sampling_kwargs_value_or_default batch_spec "value" KwVal.kNone with
  | KwVal.kStr column_name, KwVal.kInt m, KwVal.kInt v =>
    if df.all (fun row => (row.lookup column_name).isSome) then
      Except.ok (df.filter (fun row =>
        match row.lookup column_name with
        | some x => x % m == v
        | none => false))
    else Except.error "ColumnNotFoundError"
  | _, _, _ => Except.error "TypeError"

/-- Embedding of `PolarsDataSampler.sample_using_a_list`: keeps the rows whose
value in the named column belongs to `value_list`. -/
def sample_using_a_list (batch_spec : PolarsBatchSpec)
    (df : PolarsDataFrame) : Except String PolarsDataFrame := do
  let sampling_kwargs ← verify_batch_spec_sampling_kwargs_exists batch_spec
  let _ ← verify_batch_spec_sampling_kwargs_key_exists "column_name" sampling_kwargs
  let _ ← verify_batch_spec_sampling_kwargs_key_exists "value_list" sampling_kwargs
  match get_sampling_kwargs_value_or_default batch_spec "column_name" KwVal.kNone,
      get_sampling_kwargs_value_or_default batch_spec "value_list" KwVal.kNone with
  | KwVal.kStr column_name, KwVal.kIntList value_list =>
    if df.all (fun row => (row.lookup column_name).isSome) then
      Except.ok (df.filter (fun row =>
        match row.lookup column_name with
        | some x => value_list.contains x
        | none => false))
    else Except.error "ColumnNotFoundError"
  | _, _ => Except.error "TypeError"

/-- Embedding of `PolarsDataSampler.sample_using_hash`: looks the hash function
up in `hashlib` (modelled by the partial map `hash_functions`; an unknown name
raises `ExecutionEngineError`), hashes `str(x)` for the named column's value
and keeps the rows whose digest ends in `hash_value` over the last
`hash_digits` characters. -/
def sample_using_hash (hash_functions : String → Option (String → String))
    (batch_spec : PolarsBatchSpec) (df : PolarsDataFrame) :
    Except String PolarsDataFrame := do
  let sampling_kwargs ← verify_batch_spec_sampling_kwargs_exists batch_spec
  let _ ← verify_batch_spec_sampling_kwargs_key_exists "column_name" sampling_kwargs
  match get_sampling_kwargs_value_or_default batch_spec "column_name" KwVal.kNone,
      get_sampling_kwargs_value_or_default batch_spec "hash_digits"
        (KwVal.kInt 1),
      get_sampling_kwargs_value_or_default batch_spec "hash_value"
        (KwVal.kStr "f"),
      get_sampling_kwargs_value_or_default batch_spec "hash_function_name"
        (KwVal.kStr "md5") with
  | KwVal.kStr column_name, KwVal.kInt hash_digits, KwVal.kStr hash_value,
      KwVal.kStr hash_function_name =>
    match hash_functions hash_function_name with
    | none => Except.error "ExecutionEngineError: The sampling method used with PolarsExecutionEngine has a reference to an invalid hash_function_name"
    | some hash_func =>
      if df.all (fun row => (row.lookup column_name).isSome) then
        Except.ok (df.filter (fun row =>
          match row.lookup column_name with
          | some x =>
            (hash_func (toString x)).takeRight hash_digits.toNat == hash_value
          | none => false))
      else Except.error "ColumnNotFoundError"
  | _, _, _, _ => Except.error "TypeError"

/-- The sampling strategies defined by the `PolarsDataSampler` class, in
source order. -/
def polars_sampling_methods : List String :=
  ["sample_using_limit", "sample_using_random", "sample_using_mod",
   "sample_using_a_list", "sample_using_hash"]

/-- Formal statement of claim C5: the class provides six distinct sampling
strategies. -/
def polarsSamplerProvidesSixStrategies : Prop :=
  polars_sampling_methods.length = 6 ∧ polars_sampling_methods.Nodup

theorem sample_using_limit_prefix (batch_spec : PolarsBatchSpec)
    (df res : PolarsDataFrame)
    (h : sample_using_limit batch_spec df = Except.ok res) :
    res.IsPrefix df := by
  unfold sample_using_limit at h
  cases batch_spec with
  | none =>
    simp [verify_batch_spec_sampling_kwargs_exists, Bind.bind, Except.bind] at h
  | some kw =>
    simp only [verify_batch_spec_sampling_kwargs_exists,
      verify_batch_spec_sampling_kwargs_key_exists, Bind.bind, Except.bind] at h
    repeat' split at h
    all_goals first
    | exact Except.noConfusion h
    | (injection h with h2
       rw [← h2]
       exact List.take_prefix _ _)

theorem sample_using_mod_sublist (batch_spec : PolarsBatchSpec)
    (df res : PolarsDataFrame)
    (h : sample_using_mod batch_spec df = Except.ok res) :
    res.Sublist df := by
  unfold sample_using_mod at h
  cases batch_spec with
  | none =>
    simp [verify_batch_spec_sampling_kwargs_exists, Bind.bind, Except.bind] at h
  | some kw =>
    simp only [verify_batch_spec_sampling_kwargs_exists,
      verify_batch_spec_sampling_kwargs_key_exists, Bind.bind, Except.bind] at h
    repeat' split at h
    all_goals first
    | exact Except.noConfusion h
    | (injection h with h2
       rw [← h2]
       exact List.filter_sublist _)

theorem sample_using_a_list_sublist (batch_spec : PolarsBatchSpec)
    (df res : PolarsDataFrame)
    (h : sample_using_a_list batch_spec df = Except.ok res) :
    res.Sublist df := by
  unfold sample_using_a_list at h
  cases batch_spec with
  | none =>
    simp [verify_batch_spec_sampling_kwargs_exists, Bind.bind, Except.bind] at h
  | some kw =>
    simp only [verify_batch_spec_sampling_kwargs_exists,
      verify_batch_spec_sampling_kwargs_key_exists, Bind.bind, Except.bind] at h
    repeat' split at h
    all_goals first
    | exact Except.noConfusion h
    | (injection h with h2
       rw [← h2]
       exact List.filter_sublist _)

theorem sample_using_hash_sublist
    (hash_functions : String → Option (String → String))
    (batch_spec : PolarsBatchSpec) (df res : PolarsDataFrame)
    (h : sample_using_hash hash_functions batch_spec df = Except.ok res) :
    res.Sublist df := by
  unfold sample_using_hash at h
  cases batch_spec with
  | none =>
    simp [verify_batch_spec_sampling_kwargs_exists, Bind.bind, Except.bind] at h
  | some kw =>
    simp only [verify_batch_spec_sampling_kwargs_exists,
      verify_batch_spec_sampling_kwargs_key_exists, Bind.bind, Except.bind] at h
    repeat' split at h
    all_goals first
    | exact Except.noConfusion h
    | (injection h with h2
       rw [← h2]
       exact List.filter_sublist _)

theorem sample_using_random_sublist
    (polars_sample : PolarsDataFrame → KwVal → PolarsDataFrame)
    (hsub : ∀ d q, (polars_sample d q).Sublist d)
    (batch_spec : PolarsBatchSpec) (df res : PolarsDataFrame)
    (h : sample_using_random polars_sample batch_spec df = Except.ok res) :
    res.Sublist df := by
  unfold sample_using_random at h
  injection h with h2
  rw [← h2]
  exact hsub df _

/-- C5 counterexample: `PolarsDataSampler` defines five sampling strategies
(`sample_using_limit`, `sample_using_random`, `sample_using_mod`,
`sample_using_a_list`, `sample_using_hash`), not six. -/
theorem polars_sampler_not_six_strategies :
    ¬ polarsSamplerProvidesSixStrategies := by
  intro h
  exact absurd h.1 (by decide)

/-- C5 (amended): `PolarsDataSampler` provides five (not six) independent
sampling strategies, each a thin wrapper over the dataframe library's
filter/sample primitives: `sample_using_limit` returns a prefix of the rows
(`df.head`), `sample_using_mod`, `sample_using_a_list` and `sample_using_hash`
return row-filterings (sublists), and `sample_using_random` delegates to
`df.sample`, which selects a subset of the rows. -/
theorem polars_sampler_five_thin_strategies :
    polars_sampling_methods.length = 5 ∧
    polars_sampling_methods.Nodup ∧
    (∀ batch_spec df res, sample_using_limit batch_spec df = Except.ok res →
      res.IsPrefix df) ∧
    (∀ batch_spec df res, sample_using_mod batch_spec df = Except.ok res →
      res.Sublist df) ∧
    (∀ batch_spec df res, sample_using_a_list batch_spec df = Except.ok res →
      res.Sublist df) ∧
    (∀ hash_functions batch_spec df res,
      sample_using_hash hash_functions batch_spec df = Except.ok res →
      res.Sublist df) ∧
    (∀ polars_sample, (∀ d q, (polars_sample d q).Sublist d) →
      ∀ batch_spec df res,
        sample_using_random polars_sample batch_spec df = Except.ok res →
        res.Sublist df) :=
  ⟨by decide, by decide, sample_using_limit_prefix, sample_using_mod_sublist,
    sample_using_a_list_sublist, sample_using_hash_sublist,
    fun f hsub bs df res h => sample_using_random_sublist f hsub bs df res h⟩

/-- Witness for the amended C5: a concrete `sample_using_limit` run returns a
prefix of the concrete dataframe. -/
theorem polars_sampler_five_thin_strategies_witness :
    (([[("x", (1 : Int))], [("x", 2)], [("x", 3)]] : PolarsDataFrame).take
      2).IsPrefix [[("x", (1 : Int))], [("x", 2)], [("x", 3)]] :=
  (polars_sampler_five_thin_strategies).2.2.1
    (some [("n", KwVal.kInt 2)]) [[("x", (1 : Int))], [("x", 2)], [("x", 3)]]
    (([[("x", (1 : Int))], [("x", 2)], [("x", 3)]] : PolarsDataFrame).take 2)
    rfl

/-!
Model of the marshmallow field types used by `BatchMetricComputationSchema`.

`uuid.UUID` values are carried as their canonical lowercase-hyphenated string
(which `str()` prints and `uuid.UUID(...)` parses back), `datetime` values as
their ISO-8601 `isoformat()` string (which `DateTime._serialize` prints and
`DateTime._deserialize` parses back); both serializer/parser pairs are
mutually inverse on these canonical forms, which is what the model encodes.
Deserializers are modelled on the value shapes that `dump` can produce.
-/

/-- Lowercase hexadecimal digit. -/
def isLowerHexChar (c : Char) : Bool :=
  (c ≥ '0' && c ≤ '9') || (c ≥ 'a' && c ≤ 'f')

/-- Canonical form printed by `str(uuid.UUID(...))`: 8-4-4-4-12 lowercase
hex digits separated by hyphens. -/
def isCanonicalUuid (s : String) : Bool :=
  let cs := s.toList
  cs.length == 36 &&
  (List.range 36).all (fun i =>
    if i == 8 || i == 13 || i == 18 || i == 23 then cs.getD i ' ' == '-'
    else isLowerHexChar (cs.getD i ' '))

/-- Shape of `datetime.isoformat()` output as far as the model checks it:
`YYYY-MM-DDTHH:MM:SS` followed by an optional suffix. -/
def isIsoDateTime (s : String) : Bool :=
  let cs := s.toList
  decide (19 ≤ cs.length) &&
  (List.range 19).all (fun i =>
    if i == 4 || i == 7 then cs.getD i ' ' == '-'
    else if i == 10 then cs.getD i ' ' == 'T'
    else if i == 13 || i == 16 then cs.getD i ' ' == ':'
    else (cs.getD i ' ').isDigit)

/-- Python `str()` of the modelled values. -/
def pyStr : PyVal → String
  | PyVal.vNone => "None"
  | PyVal.vBool true => "True"
  | PyVal.vBool false => "False"
  | PyVal.vInt n => toString n
  | PyVal.vStr s => s
  | PyVal.vUuid s => s
  | PyVal.vDateTime s => s
  | PyVal.vDict _ => "dict"

/-- Serializer of `marshmallow.fields.Integer`. -/
def serInteger : PyVal → Except String PyVal
  | PyVal.vInt n => Except.ok (PyVal.vInt n)
  | PyVal.vNone => Except.ok PyVal.vNone
  | _ => Except.error "Not a valid integer."

/-- Serializer of `marshmallow.fields.DateTime` (`value.isoformat()`). -/
def serDateTime : PyVal → Except String PyVal
  | PyVal.vDateTime s => Except.ok (PyVal.vStr s)
  | PyVal.vNone => Except.ok PyVal.vNone
  | _ => Except.error "Not a valid datetime."

/-- Serializer of `marshmallow.fields.Boolean`. -/
def serBoolean : PyVal → Except String PyVal
  | PyVal.vBool b => Except.ok (PyVal.vBool b)
  | PyVal.vNone => Except.ok PyVal.vNone
  | _ => Except.error "Not a valid boolean."

/-- Serializer of `marshmallow.fields.UUID` (inherits `String`: `str(value)`). -/
def serUuid : PyVal → Except String PyVal
  | PyVal.vNone => Except.ok PyVal.vNone
  | v => Except.ok (PyVal.vStr (pyStr v))

/-- Serializer of `marshmallow.fields.String` (`str(value)`). -/
def serString : PyVal → Except String PyVal
  | PyVal.vNone => Except.ok PyVal.vNone
  | v => Except.ok (PyVal.vStr (pyStr v))

/-- Serializer of `marshmallow.fields.Raw` (identity). -/
def serRaw : PyVal → Except String PyVal := fun v => Except.ok v

/-- Serializer of `marshmallow.fields.Dict`. -/
def serDict : PyVal → Except String PyVal
  | PyVal.vDict l => Except.ok (PyVal.vDict l)
  | PyVal.vNone => Except.ok PyVal.vNone
  | _ => Except.error "Not a valid mapping type."

/-- Shared `allow_none` gate of marshmallow deserialization. -/
def deserNone (allow_none : Bool) : Except String PyVal :=
  if allow_none then Except.ok PyVal.vNone
  else Except.error "Field may not be null."

/-- Deserializer of `marshmallow.fields.Integer`. -/
def deserInteger (allow_none : Bool) : PyVal → Except String PyVal
  | PyVal.vInt n => Except.ok (PyVal.vInt n)
  | PyVal.vNone => deserNone allow_none
  | _ => Except.error "Not a valid integer."

/-- Deserializer of `marshmallow.fields.DateTime` (`from_iso_datetime`). -/
def deserDateTime (allow_none : Bool) : PyVal → Except String PyVal
  | PyVal.vStr s =>
    if isIsoDateTime s then Except.ok (PyVal.vDateTime s)
    else Except.error "Not a valid datetime."
  | PyVal.vNone => deserNone allow_none
  | _ => Except.error "Not a valid datetime."

/-- Deserializer of `marshmallow.fields.Boolean`. -/
def deserBoolean (allow_none : Bool) : PyVal → Except String PyVal
  | PyVal.vBool b => Except.ok (PyVal.vBool b)
  | PyVal.vNone => deserNone allow_none
  | _ => Except.error "Not a valid boolean."

/-- Deserializer of `marshmallow.fields.UUID` (`uuid.UUID(value)`; a value
that already is a UUID is returned as is). -/
def deserUuid (allow_none : Bool) : PyVal → Except String PyVal
  | PyVal.vStr s =>
    if isCanonicalUuid s then Except.ok (PyVal.vUuid s)
    else Except.error "Not a valid UUID."
  | PyVal.vUuid s => Except.ok (PyVal.vUuid s)
  | PyVal.vNone => deserNone allow_none
  | _ => Except.error "Not a valid UUID."

/-- Deserializer of `marshmallow.fields.String`. -/
def deserString (allow_none : Bool) : PyVal → Except String PyVal
  | PyVal.vStr s => Except.ok (PyVal.vStr s)
  | PyVal.vNone => deserNone allow_none
  | _ => Except.error "Not a valid string."

/-- Deserializer of `marshmallow.fields.Raw` (identity, after the
`allow_none` gate). -/
def deserRaw (allow_none : Bool) (v : PyVal) : Except String PyVal :=
  if v == PyVal.vNone then deserNone allow_none else Except.ok v

/-- Deserializer of `marshmallow.fields.Dict`. -/
def deserDict (allow_none : Bool) : PyVal → Except String PyVal
  | PyVal.vDict l => Except.ok (PyVal.vDict l)
  | PyVal.vNone => deserNone allow_none
  | _ => Except.error "Not a valid mapping type."

/-- Model of the `BatchMetricComputation` record (`Attributes` dot-dict): the
constructor's fields in declaration order, each holding a Python value. -/
structure BatchMetricComputation where
  id : PyVal
  created_at : PyVal
  updated_at : PyVal
  deleted_at : PyVal
  deleted : PyVal
  archived_at : PyVal
  archived : PyVal
  data_context_uuid : PyVal
  datasource_name : PyVal
  data_asset_name : PyVal
  batch_name : PyVal
  batch_uuid : PyVal
  metric_name : PyVal
  metric_domain_kwargs_uuid : PyVal
  metric_value_kwargs_uuid : PyVal
  value : PyVal
  details : PyVal
deriving DecidableEq, Repr

/-- Embedding of `BatchMetricComputationSchema` dumping (the schema's declared
fields applied to the record's attributes, in declaration order). -/
def BatchMetricComputationSchema.dump (r : BatchMetricComputation) :
    Except String (List (String × PyVal)) := do
  let idv ← serInteger r.id
  let c ← serDateTime r.created_at
  let u ← serDateTime r.updated_at
  let dd ← serDateTime r.deleted_at
  let de ← serBoolean r.deleted
  let aa ← serDateTime r.archived_at
  let ar ← serBoolean r.archived
  let dcu ← serUuid r.data_context_uuid
  let dsn ← serString r.datasource_name
  let dan ← serString r.data_asset_name
  let bn ← serRaw r.batch_name
  let bu ← serUuid r.batch_uuid
  let mn ← serString r.metric_name
  let mdk ← serUuid r.metric_domain_kwargs_uuid
  let mvk ← serUuid r.metric_value_kwargs_uuid
  let v ← serRaw r.value
  let dt ← serDict r.details
  Except.ok [("id", idv), ("created_at", c), ("updated_at", u),
    ("deleted_at", dd), ("deleted", de), ("archived_at", aa),
    ("archived", ar), ("data_context_uuid", dcu), ("datasource_name", dsn),
    ("data_asset_name", dan), ("batch_name", bn), ("batch_uuid", bu),
    ("metric_name", mn), ("metric_domain_kwargs_uuid", mdk),
    ("metric_value_kwargs_uuid", mvk), ("value", v), ("details", dt)]

/-- Embedding of `BatchMetricComputation.to_dict`
(`batchMetricComputationSchema.dump(self)`). -/
def BatchMetricComputation.to_dict (r : BatchMetricComputation) :
    Except String (List (String × PyVal)) :=
  BatchMetricComputationSchema.dump r

/-- Field access during load: the dictionaries fed to `load` in the round-trip
carry every declared key (as every `dump` output does). -/
def loadField (d : List (String × PyVal)) (name : String) :
    Except String PyVal :=
  match d.lookup name with
  | some v => Except.ok v
  | none => Except.error "Missing data for required field."

/-- Embedding of `BatchMetricComputationSchema` loading: each declared field is
deserialized with its `allow_none` flag, then the `post_load` hook
`make_batch_metric_computations` rebuilds the record from the loaded data. -/
def BatchMetricComputationSchema.load (d : List (String × PyVal)) :
    Except String BatchMetricComputation := do
  let idv ← deserInteger true (← loadField d "id")
  let c ← deserDateTime true (← loadField d "created_at")
  let u ← deserDateTime true (← loadField d "updated_at")
  let dd ← deserDateTime true (← loadField d "deleted_at")
  let de ← deserBoolean true (← loadField d "deleted")
  let aa ← deserDateTime true (← loadField d "archived_at")
  let ar ← deserBoolean true (← loadField d "archived")
  let dcu ← deserUuid true (← loadField d "data_context_uuid")
  let dsn ← deserString false (← loadField d "datasource_name")
  let dan ← deserString false (← loadField d "data_asset_name")
  let bn ← deserRaw false (← loadField d "batch_name")
  let bu ← deserUuid false (← loadField d "batch_uuid")
  let mn ← deserString false (← loadField d "metric_name")
  let mdk ← deserUuid false (← loadField d "metric_domain_kwargs_uuid")
  let mvk ← deserUuid false (← loadField d "metric_value_kwargs_uuid")
  let v ← deserRaw true (← loadField d "value")
  let dt ← deserDict true (← loadField d "details")
  Except.ok ⟨idv, c, u, dd, de, aa, ar, dcu, dsn, dan, bn, bu, mn, mdk, mvk,
    v, dt⟩

/-- Round trip of claim C7: serialize through the schema (as `to_dict` does)
and load the result through the same schema. -/
def batchMetricComputationRoundTrip (r : BatchMetricComputation) :
    Except String BatchMetricComputation :=
  (BatchMetricComputation.to_dict r).bind BatchMetricComputationSchema.load

/-- Value shapes documented by the record constructor's annotations. -/
def isIntOrNone : PyVal → Bool
  | PyVal.vInt _ => true
  | PyVal.vNone => true
  | _ => false

def isDateTimeOrNone : PyVal → Bool
  | PyVal.vDateTime s => isIsoDateTime s
  | PyVal.vNone => true
  | _ => false

def isBoolVal : PyVal → Bool
  | PyVal.vBool _ => true
  | _ => false

def isUuidVal : PyVal → Bool
  | PyVal.vUuid s => isCanonicalUuid s
  | _ => false

def isUuidOrNone : PyVal → Bool
  | PyVal.vUuid s => isCanonicalUuid s
  | PyVal.vNone => true
  | _ => false

def isNotNone : PyVal → Bool
  | PyVal.vNone => false
  | _ => true

def isDictOrNone : PyVal → Bool
  | PyVal.vDict _ => true
  | PyVal.vNone => true
  | _ => false

theorem integer_field_roundtrip (v : PyVal) (h : isIntOrNone v = true) :
    ∃ w, serInteger v = Except.ok w ∧ deserInteger true w = Except.ok v := by
  cases v <;> simp [isIntOrNone] at h <;>
    exact ⟨_, rfl, by simp [deserInteger, deserNone]⟩

theorem datetime_field_roundtrip (v : PyVal) (h : isDateTimeOrNone v = true) :
    ∃ w, serDateTime v = Except.ok w ∧ deserDateTime true w = Except.ok v := by
  cases v with
  | vNone => exact ⟨_, rfl, by simp [deserDateTime, deserNone]⟩
  | vDateTime s =>
    refine ⟨PyVal.vStr s, rfl, ?_⟩
    have hs : isIsoDateTime s = true := by simpa [isDateTimeOrNone] using h
    simp [deserDateTime, hs]
  | vBool b => simp [isDateTimeOrNone] at h
  | vInt n => simp [isDateTimeOrNone] at h
  | vStr s => simp [isDateTimeOrNone] at h
  | vUuid s => simp [isDateTimeOrNone] at h
  | vDict l => simp [isDateTimeOrNone] at h

theorem boolean_field_roundtrip (v : PyVal) (h : isBoolVal v = true) :
    ∃ w, serBoolean v = Except.ok w ∧ deserBoolean true w = Except.ok v := by
  cases v <;> simp [isBoolVal] at h <;>
    exact ⟨_, rfl, by simp [deserBoolean]⟩

theorem uuid_field_roundtrip (v : PyVal) (allow_none : Bool)
    (h : (if allow_none then isUuidOrNone v else isUuidVal v) = true) :
    ∃ w, serUuid v = Except.ok w ∧ deserUuid allow_none w = Except.ok v := by
  cases v with
  | vNone =>
    cases allow_none with
    | true => exact ⟨_, rfl, by simp [deserUuid, deserNone]⟩
    | false => simp [isUuidVal] at h
  | vUuid s =>
    have hs : isCanonicalUuid s = true := by
      cases allow_none <;> simpa [isUuidVal, isUuidOrNone] using h
    exact ⟨PyVal.vStr s, rfl, by simp [deserUuid, pyStr, hs]⟩
  | vBool b => cases allow_none <;> simp [isUuidVal, isUuidOrNone] at h
  | vInt n => cases allow_none <;> simp [isUuidVal, isUuidOrNone] at h
  | vStr s => cases allow_none <;> simp [isUuidVal, isUuidOrNone] at h
  | vDateTime s => cases allow_none <;> simp [isUuidVal, isUuidOrNone] at h
  | vDict l => cases allow_none <;> simp [isUuidVal, isUuidOrNone] at h

theorem string_field_roundtrip (v : PyVal) (h : v.isStr = true) :
    ∃ w, serString v = Except.ok w ∧ deserString false w = Except.ok v := by
  cases v <;> simp [PyVal.isStr] at h
  exact ⟨_, rfl, by simp [deserString, pyStr]⟩

theorem raw_field_roundtrip_opt (v : PyVal) :
    ∃ w, serRaw v = Except.ok w ∧ deserRaw true w = Except.ok v := by
  refine ⟨v, rfl, ?_⟩
  unfold deserRaw
  by_cases hv : v = PyVal.vNone
  · subst hv
    simp [deserNone]
  · rw [if_neg (by simpa using hv)]

theorem raw_field_roundtrip_req (v : PyVal) (h : isNotNone v = true) :
    ∃ w, serRaw v = Except.ok w ∧ deserRaw false w = Except.ok v := by
  refine ⟨v, rfl, ?_⟩
  unfold deserRaw
  have hv : v ≠ PyVal.vNone := by
    intro hh
    subst hh
    simp [isNotNone] at h
  rw [if_neg (by simpa using hv)]

theorem dict_field_roundtrip (v : PyVal) (h : isDictOrNone v = true) :
    ∃ w, serDict v = Except.ok w ∧ deserDict true w = Except.ok v := by
  cases v <;> simp [isDictOrNone] at h <;>
    exact ⟨_, rfl, by simp [deserDict, deserNone]⟩

/-- Well-formed record: each field holds the value shape that the constructor's
annotations and the schema's field types describe (UUID-typed fields hold
actual `uuid.UUID` values, datetime fields hold datetimes or `None`, and so
on). -/
def BatchMetricComputation.wellFormed (r : BatchMetricComputation) : Bool :=
  isIntOrNone r.id &&
  isDateTimeOrNone r.created_at &&
  isDateTimeOrNone r.updated_at &&
  isDateTimeOrNone r.deleted_at &&
  isBoolVal r.deleted &&
  isDateTimeOrNone r.archived_at &&
  isBoolVal r.archived &&
  isUuidOrNone r.data_context_uuid &&
  r.datasource_name.isStr &&
  r.data_asset_name.isStr &&
  isNotNone r.batch_name &&
  isUuidVal r.batch_uuid &&
  r.metric_name.isStr &&
  isUuidVal r.metric_domain_kwargs_uuid &&
  isUuidVal r.metric_value_kwargs_uuid &&
  isDictOrNone r.details

theorem except_bind_ok {e a b : Type} (x : a) (f : a → Except e b) :
    ((Except.ok x : Except e a) >>= f) = f x := rfl

theorem dump_of_serialized_fields (r : BatchMetricComputation) (w1 w2 w3 w4 w5 w6 w7 w8 w9 w10 w11 w12 w13 w14 w15 w16 w17 : PyVal)
    (hs1 : serInteger r.id = Except.ok w1)
    (hs2 : serDateTime r.created_at = Except.ok w2)
    (hs3 : serDateTime r.updated_at = Except.ok w3)
    (hs4 : serDateTime r.deleted_at = Except.ok w4)
    (hs5 : serBoolean r.deleted = Except.ok w5)
    (hs6 : serDateTime r.archived_at = Except.ok w6)
    (hs7 : serBoolean r.archived = Except.ok w7)
    (hs8 : serUuid r.data_context_uuid = Except.ok w8)
    (hs9 : serString r.datasource_name = Except.ok w9)
    (hs10 : serString r.data_asset_name = Except.ok w10)
    (hs11 : serRaw r.batch_name = Except.ok w11)
    (hs12 : serUuid r.batch_uuid = Except.ok w12)
    (hs13 : serString r.metric_name = Except.ok w13)
    (hs14 : serUuid r.metric_domain_kwargs_uuid = Except.ok w14)
    (hs15 : serUuid r.metric_value_kwargs_uuid = Except.ok w15)
    (hs16 : serRaw r.value = Except.ok w16)
    (hs17 : serDict r.details = Except.ok w17) :
    BatchMetricComputationSchema.dump r = Except.ok [("id", w1), ("created_at", w2), ("updated_at", w3), ("deleted_at", w4), ("deleted", w5), ("archived_at", w6), ("archived", w7), ("data_context_uuid", w8), ("datasource_name", w9), ("data_asset_name", w10), ("batch_name", w11), ("batch_uuid", w12), ("metric_name", w13), ("metric_domain_kwargs_uuid", w14), ("metric_value_kwargs_uuid", w15), ("value", w16), ("details", w17)] := by
  unfold BatchMetricComputationSchema.dump
  simp only [hs1, hs2, hs3, hs4, hs5, hs6, hs7, hs8, hs9, hs10, hs11, hs12,
    hs13, hs14, hs15, hs16, hs17, except_bind_ok]

theorem load_of_serialized_fields (w1 w2 w3 w4 w5 w6 w7 w8 w9 w10 w11 w12 w13 w14 w15 w16 w17 v1 v2 v3 v4 v5 v6 v7 v8 v9 v10 v11 v12 v13 v14 v15 v16 v17 : PyVal)
    (hd1 : deserInteger true w1 = Except.ok v1)
    (hd2 : deserDateTime true w2 = Except.ok v2)
    (hd3 : deserDateTime true w3 = Except.ok v3)
    (hd4 : deserDateTime true w4 = Except.ok v4)
    (hd5 : deserBoolean true w5 = Except.ok v5)
    (hd6 : deserDateTime true w6 = Except.ok v6)
    (hd7 : deserBoolean true w7 = Except.ok v7)
    (hd8 : deserUuid true w8 = Except.ok v8)
    (hd9 : deserString false w9 = Except.ok v9)
    (hd10 : deserString false w10 = Except.ok v10)
    (hd11 : deserRaw false w11 = Except.ok v11)
    (hd12 : deserUuid false w12 = Except.ok v12)
    (hd13 : deserString false w13 = Except.ok v13)
    (hd14 : deserUuid false w14 = Except.ok v14)
    (hd15 : deserUuid false w15 = Except.ok v15)
    (hd16 : deserRaw true w16 = Except.ok v16)
    (hd17 : deserDict true w17 = Except.ok v17) :
    BatchMetricComputationSchema.load [("id", w1), ("created_at", w2), ("updated_at", w3), ("deleted_at", w4), ("deleted", w5), ("archived_at", w6), ("archived", w7), ("data_context_uuid", w8), ("datasource_name", w9), ("data_asset_name", w10), ("batch_name", w11), ("batch_uuid", w12), ("metric_name", w13), ("metric_domain_kwargs_uuid", w14), ("metric_value_kwargs_uuid", w15), ("value", w16), ("details", w17)] =
      Except.ok ⟨v1, v2, v3, v4, v5, v6, v7, v8, v9, v10, v11, v12, v13, v14,
        v15, v16, v17⟩ := by
  have hl1 : List.lookup "id" [("id", w1), ("created_at", w2), ("updated_at", w3), ("deleted_at", w4), ("deleted", w5), ("archived_at", w6), ("archived", w7), ("data_context_uuid", w8), ("datasource_name", w9), ("data_asset_name", w10), ("batch_name", w11), ("batch_uuid", w12), ("metric_name", w13), ("metric_domain_kwargs_uuid", w14), ("metric_value_kwargs_uuid", w15), ("value", w16), ("details", w17)] = some w1 := rfl
  have hl2 : List.lookup "created_at" [("id", w1), ("created_at", w2), ("updated_at", w3), ("deleted_at", w4), ("deleted", w5), ("archived_at", w6), ("archived", w7), ("data_context_uuid", w8), ("datasource_name", w9), ("data_asset_name", w10), ("batch_name", w11), ("batch_uuid", w12), ("metric_name", w13), ("metric_domain_kwargs_uuid", w14), ("metric_value_kwargs_uuid", w15), ("value", w16), ("details", w17)] = some w2 := rfl
  have hl3 : List.lookup "updated_at" [("id", w1), ("created_at", w2), ("updated_at", w3), ("deleted_at", w4), ("deleted", w5), ("archived_at", w6), ("archived", w7), ("data_context_uuid", w8), ("datasource_name", w9), ("data_asset_name", w10), ("batch_name", w11), ("batch_uuid", w12), ("metric_name", w13), ("metric_domain_kwargs_uuid", w14), ("metric_value_kwargs_uuid", w15), ("value", w16), ("details", w17)] = some w3 := rfl
  have hl4 : List.lookup "deleted_at" [("id", w1), ("created_at", w2), ("updated_at", w3), ("deleted_at", w4), ("deleted", w5), ("archived_at", w6), ("archived", w7), ("data_context_uuid", w8), ("datasource_name", w9), ("data_asset_name", w10), ("batch_name", w11), ("batch_uuid", w12), ("metric_name", w13), ("metric_domain_kwargs_uuid", w14), ("metric_value_kwargs_uuid", w15), ("value", w16), ("details", w17)] = some w4 := rfl
  have hl5 : List.lookup "deleted" [("id", w1), ("created_at", w2), ("updated_at", w3), ("deleted_at", w4), ("deleted", w5), ("archived_at", w6), ("archived", w7), ("data_context_uuid", w8), ("datasource_name", w9), ("data_asset_name", w10), ("batch_name", w11), ("batch_uuid", w12), ("metric_name", w13), ("metric_domain_kwargs_uuid", w14), ("metric_value_kwargs_uuid", w15), ("value", w16), ("details", w17)] = some w5 := rfl
  have hl6 : List.lookup "archived_at" [("id", w1), ("created_at", w2), ("updated_at", w3), ("deleted_at", w4), ("deleted", w5), ("archived_at", w6), ("archived", w7), ("data_context_uuid", w8), ("datasource_name", w9), ("data_asset_name", w10), ("batch_name", w11), ("batch_uuid", w12), ("metric_name", w13), ("metric_domain_kwargs_uuid", w14), ("metric_value_kwargs_uuid", w15), ("value", w16), ("details", w17)] = some w6 := rfl
  have hl7 : List.lookup "archived" [("id", w1), ("created_at", w2), ("updated_at", w3), ("deleted_at", w4), ("deleted", w5), ("archived_at", w6), ("archived", w7), ("data_context_uuid", w8), ("datasource_name", w9), ("data_asset_name", w10), ("batch_name", w11), ("batch_uuid", w12), ("metric_name", w13), ("metric_domain_kwargs_uuid", w14), ("metric_value_kwargs_uuid", w15), ("value", w16), ("details", w17)] = some w7 := rfl
  have hl8 : List.lookup "data_context_uuid" [("id", w1), ("created_at", w2), ("updated_at", w3), ("deleted_at", w4), ("deleted", w5), ("archived_at", w6), ("archived", w7), ("data_context_uuid", w8), ("datasource_name", w9), ("data_asset_name", w10), ("batch_name", w11), ("batch_uuid", w12), ("metric_name", w13), ("metric_domain_kwargs_uuid", w14), ("metric_value_kwargs_uuid", w15), ("value", w16), ("details", w17)] = some w8 := rfl
  have hl9 : List.lookup "datasource_name" [("id", w1), ("created_at", w2), ("updated_at", w3), ("deleted_at", w4), ("deleted", w5), ("archived_at", w6), ("archived", w7), ("data_context_uuid", w8), ("datasource_name", w9), ("data_asset_name", w10), ("batch_name", w11), ("batch_uuid", w12), ("metric_name", w13), ("metric_domain_kwargs_uuid", w14), ("metric_value_kwargs_uuid", w15), ("value", w16), ("details", w17)] = some w9 := rfl
  have hl10 : List.lookup "data_asset_name" [("id", w1), ("created_at", w2), ("updated_at", w3), ("deleted_at", w4), ("deleted", w5), ("archived_at", w6), ("archived", w7), ("data_context_uuid", w8), ("datasource_name", w9), ("data_asset_name", w10), ("batch_name", w11), ("batch_uuid", w12), ("metric_name", w13), ("metric_domain_kwargs_uuid", w14), ("metric_value_kwargs_uuid", w15), ("value", w16), ("details", w17)] = some w10 := rfl
  have hl11 : List.lookup "batch_name" [("id", w1), ("created_at", w2), ("updated_at", w3), ("deleted_at", w4), ("deleted", w5), ("archived_at", w6), ("archived", w7), ("data_context_uuid", w8), ("datasource_name", w9), ("data_asset_name", w10), ("batch_name", w11), ("batch_uuid", w12), ("metric_name", w13), ("metric_domain_kwargs_uuid", w14), ("metric_value_kwargs_uuid", w15), ("value", w16), ("details", w17)] = some w11 := rfl
  have hl12 : List.lookup "batch_uuid" [("id", w1), ("created_at", w2), ("updated_at", w3), ("deleted_at", w4), ("deleted", w5), ("archived_at", w6), ("archived", w7), ("data_context_uuid", w8), ("datasource_name", w9), ("data_asset_name", w10), ("batch_name", w11), ("batch_uuid", w12), ("metric_name", w13), ("metric_domain_kwargs_uuid", w14), ("metric_value_kwargs_uuid", w15), ("value", w16), ("details", w17)] = some w12 := rfl
  have hl13 : List.lookup "metric_name" [("id", w1), ("created_at", w2), ("updated_at", w3), ("deleted_at", w4), ("deleted", w5), ("archived_at", w6), ("archived", w7), ("data_context_uuid", w8), ("datasource_name", w9), ("data_asset_name", w10), ("batch_name", w11), ("batch_uuid", w12), ("metric_name", w13), ("metric_domain_kwargs_uuid", w14), ("metric_value_kwargs_uuid", w15), ("value", w16), ("details", w17)] = some w13 := rfl
  have hl14 : List.lookup "metric_domain_kwargs_uuid" [("id", w1), ("created_at", w2), ("updated_at", w3), ("deleted_at", w4), ("deleted", w5), ("archived_at", w6), ("archived", w7), ("data_context_uuid", w8), ("datasource_name", w9), ("data_asset_name", w10), ("batch_name", w11), ("batch_uuid", w12), ("metric_name", w13), ("metric_domain_kwargs_uuid", w14), ("metric_value_kwargs_uuid", w15), ("value", w16), ("details", w17)] = some w14 := rfl
  have hl15 : List.lookup "metric_value_kwargs_uuid" [("id", w1), ("created_at", w2), ("updated_at", w3), ("deleted_at", w4), ("deleted", w5), ("archived_at", w6), ("archived", w7), ("data_context_uuid", w8), ("datasource_name", w9), ("data_asset_name", w10), ("batch_name", w11), ("batch_uuid", w12), ("metric_name", w13), ("metric_domain_kwargs_uuid", w14), ("metric_value_kwargs_uuid", w15), ("value", w16), ("details", w17)] = some w15 := rfl
  have hl16 : List.lookup "value" [("id", w1), ("created_at", w2), ("updated_at", w3), ("deleted_at", w4), ("deleted", w5), ("archived_at", w6), ("archived", w7), ("data_context_uuid", w8), ("datasource_name", w9), ("data_asset_name", w10), ("batch_name", w11), ("batch_uuid", w12), ("metric_name", w13), ("metric_domain_kwargs_uuid", w14), ("metric_value_kwargs_uuid", w15), ("value", w16), ("details", w17)] = some w16 := rfl
  have hl17 : List.lookup "details" [("id", w1), ("created_at", w2), ("updated_at", w3), ("deleted_at", w4), ("deleted", w5), ("archived_at", w6), ("archived", w7), ("data_context_uuid", w8), ("datasource_name", w9), ("data_asset_name", w10), ("batch_name", w11), ("batch_uuid", w12), ("metric_name", w13), ("metric_domain_kwargs_uuid", w14), ("metric_value_kwargs_uuid", w15), ("value", w16), ("details", w17)] = some w17 := rfl
  unfold BatchMetricComputationSchema.load
  simp only [loadField, hl1, hl2, hl3, hl4, hl5, hl6, hl7, hl8, hl9, hl10,
    hl11, hl12, hl13, hl14, hl15, hl16, hl17, hd1, hd2, hd3, hd4, hd5, hd6,
    hd7, hd8, hd9, hd10, hd11, hd12, hd13, hd14, hd15, hd16, hd17,
    except_bind_ok]

theorem roundtrip_eq_load (r : BatchMetricComputation)
    (d : List (String × PyVal))
    (hdump : BatchMetricComputationSchema.dump r = Except.ok d) :
    batchMetricComputationRoundTrip r = BatchMetricComputationSchema.load d := by
  unfold batchMetricComputationRoundTrip BatchMetricComputation.to_dict
  rw [hdump]
  rfl

/-- C7 (amended): serializing a `BatchMetricComputation` record through
`BatchMetricComputationSchema` (as `to_dict` does) and loading the result back
through the same schema reconstructs an equal record, provided the record's
fields hold the value shapes the schema's field types describe — in
particular, UUID-typed fields must hold `uuid.UUID` values rather than
strings, since `fields.UUID` dumps to a string and loads back to a `UUID`
object. -/
theorem batch_metric_computation_roundtrip_id (r : BatchMetricComputation)
    (h : r.wellFormed = true) :
    batchMetricComputationRoundTrip r = Except.ok r := by
  simp only [BatchMetricComputation.wellFormed, Bool.and_eq_true] at h
  obtain ⟨⟨⟨⟨⟨⟨⟨⟨⟨⟨⟨⟨⟨⟨⟨h1, h2⟩, h3⟩, h4⟩, h5⟩, h6⟩, h7⟩, h8⟩, h9⟩, h10⟩, h11⟩, h12⟩, h13⟩, h14⟩, h15⟩, h16⟩ := h
  obtain ⟨w1, hs1, hd1⟩ := integer_field_roundtrip r.id h1
  obtain ⟨w2, hs2, hd2⟩ := datetime_field_roundtrip r.created_at h2
  obtain ⟨w3, hs3, hd3⟩ := datetime_field_roundtrip r.updated_at h3
  obtain ⟨w4, hs4, hd4⟩ := datetime_field_roundtrip r.deleted_at h4
  obtain ⟨w5, hs5, hd5⟩ := boolean_field_roundtrip r.deleted h5
  obtain ⟨w6, hs6, hd6⟩ := datetime_field_roundtrip r.archived_at h6
  obtain ⟨w7, hs7, hd7⟩ := boolean_field_roundtrip r.archived h7
  obtain ⟨w8, hs8, hd8⟩ := uuid_field_roundtrip r.data_context_uuid true h8
  obtain ⟨w9, hs9, hd9⟩ := string_field_roundtrip r.datasource_name h9
  obtain ⟨w10, hs10, hd10⟩ := string_field_roundtrip r.data_asset_name h10
  obtain ⟨w11, hs11, hd11⟩ := raw_field_roundtrip_req r.batch_name h11
  obtain ⟨w12, hs12, hd12⟩ := uuid_field_roundtrip r.batch_uuid false h12
  obtain ⟨w13, hs13, hd13⟩ := string_field_roundtrip r.metric_name h13
  obtain ⟨w14, hs14, hd14⟩ :=
    uuid_field_roundtrip r.metric_domain_kwargs_uuid false h14
  obtain ⟨w15, hs15, hd15⟩ :=
    uuid_field_roundtrip r.metric_value_kwargs_uuid false h15
  obtain ⟨w16, hs16, hd16⟩ := raw_field_roundtrip_opt r.value
  obtain ⟨w17, hs17, hd17⟩ := dict_field_roundtrip r.details h16
  have hdump := dump_of_serialized_fields r w1 w2 w3 w4 w5 w6 w7 w8 w9 w10 w11 w12 w13 w14 w15 w16 w17 hs1 hs2 hs3 hs4 hs5 hs6 hs7 hs8 hs9 hs10 hs11 hs12 hs13 hs14 hs15 hs16 hs17
  have hload := load_of_serialized_fields w1 w2 w3 w4 w5 w6 w7 w8 w9 w10 w11 w12 w13 w14 w15 w16 w17 (r.id) (r.created_at) (r.updated_at) (r.deleted_at) (r.deleted) (r.archived_at) (r.archived) (r.data_context_uuid) (r.datasource_name) (r.data_asset_name) (r.batch_name) (r.batch_uuid) (r.metric_name) (r.metric_domain_kwargs_uuid) (r.metric_value_kwargs_uuid) (r.value) (r.details) hd1 hd2 hd3 hd4 hd5 hd6 hd7 hd8 hd9 hd10 hd11 hd12 hd13 hd14 hd15 hd16 hd17
  rw [roundtrip_eq_load r _ hdump, hload]

/-- Record used by the C7 counterexample: well-typed except that `batch_uuid`
holds a (canonical) UUID *string*, as the constructor's `str` annotation
suggests. -/
def exampleRecordStrUuid : BatchMetricComputation :=
  { id := PyVal.vNone
    created_at := PyVal.vNone
    updated_at := PyVal.vNone
    deleted_at := PyVal.vNone
    deleted := PyVal.vBool false
    archived_at := PyVal.vNone
    archived := PyVal.vBool false
    data_context_uuid := PyVal.vNone
    datasource_name := PyVal.vStr "my_datasource"
    data_asset_name := PyVal.vStr "my_asset"
    batch_name := PyVal.vStr "batch_1"
    batch_uuid := PyVal.vStr "12345678-1234-5678-1234-567812345678"
    metric_name := PyVal.vStr "column.mean"
    metric_domain_kwargs_uuid :=
      PyVal.vUuid "00000000-0000-0000-0000-000000000001"
    metric_value_kwargs_uuid :=
      PyVal.vUuid "00000000-0000-0000-0000-000000000002"
    value := PyVal.vNone
    details := PyVal.vNone }

/-- C7 counterexample: a record whose `batch_uuid` field holds a UUID string
(the type the constructor annotates) does not survive the round trip: the
schema's `fields.UUID` loads the dumped string back as a `uuid.UUID` object,
so the reloaded record differs from the original. -/
theorem batch_metric_computation_roundtrip_not_identity :
    batchMetricComputationRoundTrip exampleRecordStrUuid ≠
      Except.ok exampleRecordStrUuid ∧
    batchMetricComputationRoundTrip exampleRecordStrUuid =
      Except.ok { exampleRecordStrUuid with
        batch_uuid := PyVal.vUuid "12345678-1234-5678-1234-567812345678" } := by
  have h2 : batchMetricComputationRoundTrip exampleRecordStrUuid =
      Except.ok { exampleRecordStrUuid with
        batch_uuid := PyVal.vUuid "12345678-1234-5678-1234-567812345678" } := by
    rfl
  refine ⟨?_, h2⟩
  intro hcontra
  rw [h2] at hcontra
  have h3 := Except.ok.inj hcontra
  exact absurd h3 (by decide)

/-- Well-formed record used by the C7 witness. -/
def exampleRecordWellFormed : BatchMetricComputation :=
  { id := PyVal.vInt 7
    created_at := PyVal.vDateTime "2024-01-02T03:04:05"
    updated_at := PyVal.vNone
    deleted_at := PyVal.vNone
    deleted := PyVal.vBool false
    archived_at := PyVal.vNone
    archived := PyVal.vBool false
    data_context_uuid := PyVal.vNone
    datasource_name := PyVal.vStr "my_datasource"
    data_asset_name := PyVal.vStr "my_asset"
    batch_name := PyVal.vStr "batch_1"
    batch_uuid := PyVal.vUuid "12345678-1234-5678-1234-567812345678"
    metric_name := PyVal.vStr "column.mean"
    metric_domain_kwargs_uuid :=
      PyVal.vUuid "00000000-0000-0000-0000-000000000001"
    metric_value_kwargs_uuid :=
      PyVal.vUuid "00000000-0000-0000-0000-000000000002"
    value := PyVal.vInt 42
    details := PyVal.vDict [("note", "ok")] }

/-- Witness for the amended C7 at a concrete well-formed record. -/
theorem batch_metric_computation_roundtrip_id_witness :
    exampleRecordWellFormed.wellFormed = true ∧
    batchMetricComputationRoundTrip exampleRecordWellFormed =
      Except.ok exampleRecordWellFormed :=
  ⟨by decide, batch_metric_computation_roundtrip_id exampleRecordWellFormed
    (by decide)⟩
